/-
Verification of the aicp-to-bigquery budget extraction pipeline.

This file gives a shallow embedding, in Lean 4, of the pure computational
core of the repository:

* `src/budget_sync/services/cover_sheet_processor.py` (`_parse_cell_ref`),
* `src/budget_sync/services/budget_processor.py` (`_validate_line_item`,
  `_process_line_item`, `_get_class_name`, `_get_class_totals`,
  `_process_class`, `process_budget` class loop, `_get_range_values`,
  `_get_range_values_batch`, `_get_version_numbers`, `_format_money`,
  `clean_money_value`),
* `src/budget_sync/scripts/process_budget.py` (`_parse_number`,
  `prepare_detail_records` field extraction),
* `src/budget_sync/utils/data_utils.py` (`safe_float_convert`),
* `src/budget_sync/utils/data_validation.py` (`validate_budget_row`,
  `validate_budget_rows`).

Modelling conventions:
* Python floats are modelled as rationals (`ℚ`).
* A dynamically typed Python value is `PyVal` (`None`, `bool`, `int`,
  `float`, `str`); Python dictionaries with string keys are insertion
  ordered association lists (`Dict`).
* Code that may raise returns `Except PyErr _`; `try/except` blocks are
  translated by matching on the `Except`.
* Remote spreadsheet reads are replaced by explicit parameters holding the
  values the read would produce (each fetch point becomes one
  `Except PyErr _` argument, in source order), and the retry loops are
  driven by an explicit outcome stream.
-/
import Mathlib

/-- Model of a dynamically typed Python value as it appears in the
budget-processing code: `None`, a bool, an int, a float (as `ℚ`), or a
string. -/
inductive PyVal where
  | none
  | bool (b : Bool)
  | int (n : Int)
  | num (q : ℚ)
  | str (s : String)

deriving DecidableEq, Repr

/-- Python truthiness (`bool(v)`) for the values in our model. -/
def PyVal.truthy : PyVal → Bool
  | .none => false
  | .bool b => b
  | .int n => n != 0
  | .num q => q != 0
  | .str s => s != ""

/-- Whether a value is a Python `str` (`isinstance(v, str)`). -/
def PyVal.isStr : PyVal → Bool
  | .str _ => true
  | _ => false

/-- Whether a value is a Python `int` or `float` (`isinstance(v, (int, float))`);
`bool` is a subclass of `int` in Python, so it counts. -/
def PyVal.isNumeric : PyVal → Bool
  | .int _ => true
  | .num _ => true
  | .bool _ => true
  | _ => false

/-- Python whitespace characters recognised by `str.strip()` (ASCII part). -/
def isPyWhitespace (c : Char) : Bool :=
  c = ' ' || c = '\t' || c = '\n' || c = '\r' || c = '\x0b' || c = '\x0c'

/-- `str.strip()` on a character list: drop whitespace on both ends. -/
def pyStripList (cs : List Char) : List Char :=
  ((cs.dropWhile isPyWhitespace).reverse.dropWhile isPyWhitespace).reverse

/-- `str.strip()`. -/
def pyStrip (s : String) : String := ⟨pyStripList s.data⟩

/-- `str.rstrip(c)` for a single strip character: drop every trailing `c`. -/
def pyRstripChar (s : String) (c : Char) : String :=
  ⟨(s.data.reverse.dropWhile (fun d => d = c)).reverse⟩

/-- Fuel-driven worker for `replaceList` (structural recursion on the fuel,
which starts at the input length: each step consumes at least one
character, so the fuel never runs out on the initial call). -/
def replaceListAux (old new : List Char) : ℕ → List Char → List Char
  | _, [] => []
  | 0, cs => cs
  | fuel + 1, c :: cs =>
    if old ≠ [] ∧ old.isPrefixOf (c :: cs) then
      new ++ replaceListAux old new fuel (List.drop old.length (c :: cs))
    else
      c :: replaceListAux old new fuel cs

/-- Non-overlapping left-to-right replacement on character lists, the
behaviour of Python `str.replace(old, new)` (for the non-empty `old`
patterns the sources use; an empty `old` leaves the input unchanged here). -/
def replaceList (old new cs : List Char) : List Char :=
  replaceListAux old new cs.length cs

/-- `str.replace(old, new)`. -/
def pyReplace (s old new : String) : String := ⟨replaceList old.data new.data s.data⟩

/-- `str.startswith(p)`. -/
def pyStartsWith (s p : String) : Bool := p.data.isPrefixOf s.data

/-- `str.endswith(p)`. -/
def pyEndsWith (s p : String) : Bool := p.data.reverse.isPrefixOf s.data.reverse

/-- Helper for `str.split(sep, 1)`: the part after the first occurrence of
`sep`, if any. -/
def splitAfterChar (sep : Char) : List Char → Option (List Char)
  | [] => Option.none
  | c :: cs => if c = sep then some cs else splitAfterChar sep cs

/-- `s.split(sep, 1)[1]` where the callers have already checked that `sep`
occurs in `s` (returns `""` otherwise, a case the sources never reach). -/
def pySplitAfter (s : String) (sep : Char) : String :=
  ⟨(splitAfterChar sep s.data).getD []⟩

/-- Decimal value of a digit list (Python `int` accumulation). -/
def digitsToNat (cs : List Char) : ℕ := cs.foldl (fun a c => a * 10 + (c.toNat - 48)) 0

/-- Parse a non-empty all-digit list, else fail. -/
def parseDigits? (cs : List Char) : Option ℕ :=
  if cs ≠ [] && cs.all Char.isDigit then some (digitsToNat cs) else Option.none

/-- Split a character list at the first `.`, keeping both sides. -/
def breakAtDot : List Char → List Char × Option (List Char)
  | [] => ([], Option.none)
  | c :: cs =>
    if c = '.' then ([], some cs)
    else
      let p := breakAtDot cs
      (c :: p.1, p.2)

/-- Split a character list at the first `e`/`E`, keeping both sides. -/
def breakAtExp : List Char → List Char × Option (List Char)
  | [] => ([], Option.none)
  | c :: cs =>
    if c = 'e' || c = 'E' then ([], some cs)
    else
      let p := breakAtExp cs
      (c :: p.1, p.2)

/-- Model of Python's `float(s)` string conversion on decimal notation
(optional sign, digits with optional point, optional exponent), returning
`none` where Python raises `ValueError`.  Exotic accepted spellings
(`inf`, `nan`, `_` digit separators) are outside the model. -/
def pyFloatParse (s : String) : Option ℚ :=
  let cs := pyStripList s.data
  let sgnBody : ℚ × List Char :=
    match cs with
    | '+' :: r => (1, r)
    | '-' :: r => (-1, r)
    | _ => (1, cs)
  let me := breakAtExp sgnBody.2
  let mantVal : Option ℚ :=
    match breakAtDot me.1 with
    | (ip, Option.none) => (parseDigits? ip).map (fun n => (n : ℚ))
    | (ip, some fp) =>
      if fp.any (fun c => c = '.') then Option.none
      else if (ip = [] && fp = []) || !ip.all Char.isDigit || !fp.all Char.isDigit then
        Option.none
      else some ((digitsToNat ip : ℚ) + (digitsToNat fp : ℚ) / (10 : ℚ) ^ fp.length)
  match mantVal, me.2 with
  | Option.none, _ => Option.none
  | some m, Option.none => some (sgnBody.1 * m)
  | some m, some es =>
    let esgnBody : Int × List Char :=
      match es with
      | '+' :: r => (1, r)
      | '-' :: r => (-1, r)
      | _ => (1, es)
    match parseDigits? esgnBody.2 with
    | Option.none => Option.none
    | some e => some (sgnBody.1 * m * (10 : ℚ) ^ (esgnBody.1 * (e : Int)))

/-- Left-pad a digit list with zeros to a given width. -/
def padLeftZeros (ds : List Char) (k : ℕ) : List Char :=
  List.replicate (k - ds.length) '0' ++ ds

/-- Render a float value the way Python prints it, for the common case of a
finite decimal expansion (`str(7000.0) = "7000.0"`, `str(0.25) = "0.25"`);
a non-decimal rational falls back to a fraction spelling, which no claim
relies on. -/
def pyFloatStr (q : ℚ) : String :=
  if q.den = 1 then toString q.num ++ ".0"
  else
    match (List.range 28).find? (fun k => (q * (10 : ℚ) ^ k).den = 1) with
    | some k =>
      let n := (q * (10 : ℚ) ^ k).num
      let a := n.natAbs
      (if n < 0 then "-" else "") ++ toString (a / 10 ^ k) ++ "." ++
        ⟨padLeftZeros (toString (a % 10 ^ k)).data k⟩
    | Option.none => toString q.num ++ "/" ++ toString q.den

/-- Python `str(v)`. -/
def pyStr : PyVal → String
  | .none => "None"
  | .bool b => if b then "True" else "False"
  | .int n => toString n
  | .num q => pyFloatStr q
  | .str s => s

/-- Python `float(v)` on a value; `none` models `TypeError`/`ValueError`. -/
def pyFloat : PyVal → Option ℚ
  | .none => Option.none
  | .bool b => some (if b then 1 else 0)
  | .int n => some (n : ℚ)
  | .num q => some q
  | .str s => pyFloatParse s

/-- Python's `type(v).__name__`, used by validation error messages. -/
def pyTypeName : PyVal → String
  | .none => "NoneType"
  | .bool _ => "bool"
  | .int _ => "int"
  | .num _ => "float"
  | .str _ => "str"

/-- A Python `dict` with string keys, as an insertion-ordered association
list. -/
abbrev Dict := List (String × PyVal)

/-- `k in d` / `d.get(k)` support: the stored value, if present. -/
def dictGet? (d : Dict) (k : String) : Option PyVal :=
  (d.find? (fun p => p.1 = k)).map Prod.snd

/-- `d.get(k)`: `None` when the key is absent. -/
def dictGetV (d : Dict) (k : String) : PyVal := (dictGet? d k).getD .none

/-- `d.get(k, dflt)`. -/
def dictGetD (d : Dict) (k : String) (dflt : PyVal) : PyVal := (dictGet? d k).getD dflt

/-- `k in d`. -/
def dictHas (d : Dict) (k : String) : Bool := (dictGet? d k).isSome

/-- `d[k] = v`: update in place if present, else append (Python insertion
order). -/
def dictSet (d : Dict) (k : String) (v : PyVal) : Dict :=
  if dictHas d k then d.map (fun p => if p.1 = k then (k, v) else p) else d ++ [(k, v)]

/-- Exceptions that the embedded code can raise. -/
inductive PyErr where
  | keyError
  | indexError
  | typeError
  | attributeError
  | valueError
  | rateLimit
  | otherError

deriving DecidableEq, Repr

/-- `xs[i]` with Python `IndexError` semantics. -/
def pyIndex {α : Type} (xs : List α) (i : ℕ) : Except PyErr α :=
  match xs.get? i with
  | some x => Except.ok x
  | Option.none => Except.error .indexError

/-- `d[k]` with Python `KeyError` semantics. -/
def dictIndex (d : Dict) (k : String) : Except PyErr PyVal :=
  match dictGet? d k with
  | some v => Except.ok v
  | Option.none => Except.error .keyError

/-- The loop body of `CoverSheetProcessor._parse_cell_ref`
(`cover_sheet_processor.py` lines 292-301): alphabetic characters fold into
`col` as `col * 26 + (ord(upper(c)) - ord('A'))`, every other character
folds into `row` as `row * 10 + (ord(c) - ord('0'))`. -/
def parseCellRefAux : List Char → Int → Int → Int × Int
  | [], col, row => (col, row)
  | c :: cs, col, row =>
    if c.isAlpha then
      parseCellRefAux cs (col * 26 + ((c.toUpper.toNat : Int) - 65)) row
    else
      parseCellRefAux cs col (row * 10 + ((c.toNat : Int) - 48))

/-- `CoverSheetProcessor._parse_cell_ref(cell_ref)`: returns
`(row - 1, col)` ("convert to 0-based indices"). -/
def parseCellRef (cellRef : String) : Int × Int :=
  let p := parseCellRefAux cellRef.data 0 0
  (p.2 - 1, p.1)

/-- Specification-side accumulator for the letter part of a cell label:
base-26 with `A = 0`, folded left (note `AA` folds to `0 * 26 + 0 = 0`). -/
def colOfLetters (cs : List Char) : Int :=
  cs.foldl (fun a c => a * 26 + ((c.toUpper.toNat : Int) - 65)) 0

/-- Specification-side accumulator for the digit part of a cell label:
base 10. -/
def rowOfDigits (cs : List Char) : Int :=
  cs.foldl (fun a c => a * 10 + ((c.toNat : Int) - 48)) 0

/-- Banker's rounding (round half to even) on rationals, the rounding that
Python's fixed-point formatting applies. -/
def roundHalfEven (x : ℚ) : Int :=
  let f := Int.floor x
  let r := x - (f : ℚ)
  if r < 1 / 2 then f
  else if 1 / 2 < r then f + 1
  else if f % 2 = 0 then f else f + 1

/-- Fuel-driven worker for `groupRev` (structural recursion on the fuel). -/
def groupRevAux : ℕ → List Char → List Char
  | 0, ds => ds
  | fuel + 1, ds =>
    if ds.length ≤ 3 then ds
    else ds.take 3 ++ ',' :: groupRevAux fuel (ds.drop 3)

/-- Insert a `,` after every three characters of a reversed digit list. -/
def groupRev (ds : List Char) : List Char := groupRevAux ds.length ds

/-- Thousands grouping of a digit string, as in Python `"{:,}"`. -/
def groupThousands (ds : List Char) : List Char := (groupRev ds.reverse).reverse

/-- Python `"{:,.2f}".format(q)`: two decimals with comma-grouped integer
part (sign taken from the value, magnitude rounded half-even to cents). -/
def formatFloat2 (q : ℚ) : String :=
  let cents := (roundHalfEven (|q| * 100)).toNat
  (if q < 0 then "-" else "") ++ ⟨groupThousands (toString (cents / 100)).data⟩ ++ "." ++
    ⟨padLeftZeros (toString (cents % 100)).data 2⟩

/-- `BudgetProcessor._format_money(value)` (`budget_processor.py` lines
1151-1162): `None` gives `"$0.00"`; a string already starting with `$` is
returned unchanged; any other string has commas stripped and is converted
with `float`; numbers are formatted as `"${:,.2f}"`; every failure falls
back to `"$0.00"`. -/
def formatMoney (value : PyVal) : String :=
  match value with
  | .none => "$0.00"
  | .str s =>
    if pyStartsWith s "$" then s
    else
      match pyFloatParse (pyReplace s "," "") with
      | some q => "$" ++ formatFloat2 q
      | Option.none => "$0.00"
  | v =>
    match pyFloat v with
    | some q => "$" ++ formatFloat2 q
    | Option.none => "$0.00"

deriving instance DecidableEq for Except

/-- The body of `_parse_number` after `str(value).strip()` (see
`parseNumber`): percent branch, parenthesized-negative detection, `$`/`,`
stripping, and the `float(cleaned or 0)` conversion with `ValueError`
falling back to `0.0`. -/
def parseNumberBody (sv : String) : Except PyErr ℚ :=
  if pyEndsWith sv "%" then
    match pyFloatParse (pyRstripChar sv '%') with
    | some q => Except.ok (q / 100)
    | Option.none => Except.error .valueError
  else
    let isNeg := pyStartsWith sv "(" && pyEndsWith sv ")"
    let sv2 : String := if isNeg then ⟨(sv.data.drop 1).dropLast⟩ else sv
    let cleaned := pyReplace (pyReplace sv2 "$" "") "," ""
    match pyFloat (if cleaned = "" then PyVal.int 0 else PyVal.str cleaned) with
    | some r => Except.ok (if isNeg then -r else r)
    | Option.none => Except.ok 0

/-- `_parse_number(value)` from `scripts/process_budget.py` (lines 122-146):
falsy input gives `0.0`; otherwise the stringified, stripped value is
processed by `parseNumberBody` (trailing `%` divides by 100, with a
`ValueError` from `float` escaping uncaught; surrounding parentheses mark
the value negative; `$` and `,` are stripped; a failed final `float` falls
back to `0.0`). -/
def parseNumber (value : PyVal) : Except PyErr ℚ :=
  if value.truthy then parseNumberBody (pyStrip (pyStr value)) else Except.ok 0

/-- The `estimate_days` field of a detail record as built by
`prepare_detail_records` (`scripts/process_budget.py` line 176):
`_parse_number(row.get('estimate_days'))`.  `estimate_days` is a plain
day-count column, not a percentage-typed field. -/
def detailEstimateDays (row : Dict) : Except PyErr ℚ :=
  parseNumber (dictGetV row "estimate_days")

/-- `safe_float_convert(value)` from `utils/data_utils.py` (lines 15-45):
`None`, `''` and `'#N/A'` give `None`; ints and floats convert directly;
strings have `$`, `,`, spaces and `%` removed, with `'0.00'`/`'0'`
special-cased, a failed `float` giving `None`; every other type gives
`None`. -/
def safe_float_convert (value : PyVal) : Option ℚ :=
  if value = .none || value = .str "" || value = .str "#N/A" then Option.none
  else if value.isNumeric then pyFloat value
  else
    match value with
    | .str s =>
      let cleaned := pyReplace (pyReplace (pyReplace (pyReplace s "$" "") "," "") " " "") "%" ""
      if cleaned = "0.00" || cleaned = "0" then some 0
      else pyFloatParse cleaned
    | _ => Option.none

/-- Outcome of one remote `values().get`/`batchGet` call: the rate-limit
signal (`'RATE_LIMIT_EXCEEDED' in str(e)`), any other exception, or a
successful response. -/
inductive FetchOutcome where
  | rateLimit
  | otherError
  | success (values : List (List PyVal))

deriving DecidableEq, Repr

/-- The retry loop shared by `_get_range_values` and
`_get_range_values_batch` (`budget_processor.py` lines 1292-1339),
simulated over an outcome stream: `for attempt in range(max_retries)`,
with `time.sleep(base_delay * 2 ** attempt)` and `continue` on a
rate-limit error when `attempt < max_retries - 1`, and `raise` otherwise.
Returns the result, the total simulated sleep in seconds, and the number
of calls issued. -/
def runAttempts (outs : ℕ → FetchOutcome) :
    List ℕ → Except PyErr (List (List PyVal)) × ℕ × ℕ
  | [] => (Except.error .otherError, 0, 0)
  | a :: rest =>
    match outs a with
    | .success v => (Except.ok v, 0, 1)
    | .otherError => (Except.error .otherError, 0, 1)
    | .rateLimit =>
      match rest with
      | [] => (Except.error .rateLimit, 0, 1)
      | _ :: _ =>
        let r := runAttempts outs rest
        (r.1, 2 * 2 ^ a + r.2.1, r.2.2 + 1)

/-- `max_retries = 5` in `_get_range_values` and `_get_range_values_batch`. -/
def maxRetries : ℕ := 5

/-- `_get_range_values` driven by an outcome stream. -/
def getRangeValues (outs : ℕ → FetchOutcome) :
    Except PyErr (List (List PyVal)) × ℕ × ℕ :=
  runAttempts outs (List.range maxRetries)

/-- `_get_range_values_batch` driven by an outcome stream (the same retry
loop; the batch variant collects `values` per requested range). -/
def getRangeValuesBatch (outs : ℕ → FetchOutcome) :
    Except PyErr (List (List PyVal)) × ℕ × ℕ :=
  runAttempts outs (List.range maxRetries)

/-- One entry of the external version-tracking store
(`output/version_tracking.json`), in its current format. -/
structure VersionEntry where
  majorVersion : ℕ
  minorVersion : ℕ
  patchVersion : ℕ
  firstSeen : String
  lastUpdated : String
  lastDataHash : Int

deriving DecidableEq, Repr

/-- The version-tracking store keyed by `"{file_name}-{sheet_name}"`. -/
abbrev VersionStore := List (String × VersionEntry)

/-- Store lookup (`key in tracking_data` / `tracking_data[key]`). -/
def storeFind? (st : VersionStore) (k : String) : Option VersionEntry :=
  (st.find? (fun p => p.1 = k)).map Prod.snd

/-- `tracking_data[key] = entry`: update in place or append. -/
def storeSet (st : VersionStore) (k : String) (e : VersionEntry) : VersionStore :=
  if (st.find? (fun p => p.1 = k)).isSome then
    st.map (fun p => if p.1 = k then (k, e) else p)
  else st ++ [(k, e)]

/-- `BudgetProcessor._get_version_numbers` (`budget_processor.py` lines
652-720) on a store in the current format (the legacy
`current_increment` migration of lines 667-679 predates the typed entry
shape and is outside this model): a never-seen key starts at
`(len(previous same-file keys) + 1, 0, 1)`; an existing key bumps
`patch_version` when the content hash is unchanged, else bumps
`minor_version` and resets `patch_version` to 1.  Returns the updated
store and the `(major, minor, patch)` triple. -/
def getVersionNumbers (st : VersionStore) (fileName sheetName dateStr : String)
    (currentHash : Int) : VersionStore × ℕ × ℕ × ℕ :=
  let key := fileName ++ "-" ++ sheetName
  match storeFind? st key with
  | Option.none =>
    let previousVersions := st.filter (fun p => pyStartsWith p.1 fileName && p.1 ≠ key)
    let e : VersionEntry :=
      ⟨previousVersions.length + 1, 0, 1, dateStr, dateStr, currentHash⟩
    (storeSet st key e, e.majorVersion, e.minorVersion, e.patchVersion)
  | some e =>
    let e2 :=
      if currentHash = e.lastDataHash then
        { e with patchVersion := e.patchVersion + 1, lastUpdated := dateStr }
      else
        { e with minorVersion := e.minorVersion + 1, patchVersion := 1,
                 lastDataHash := currentHash, lastUpdated := dateStr }
    (storeSet st key e2, e2.majorVersion, e2.minorVersion, e2.patchVersion)

/-- The parts of one `CLASS_MAPPINGS` entry that the embedded logic reads:
`required_fields`, whether `pw_cells['estimate']` is not `None`, and
whether `client_total_cell` is present.  (The cell addresses themselves
only name the remote ranges, which the embedding replaces by explicit
fetched-value parameters.) -/
structure ClassMapping where
  requiredFields : List String
  hasPw : Bool
  hasClientTotal : Bool

deriving DecidableEq, Repr

/-- The class codes that key `BudgetProcessor.CLASS_MAPPINGS` besides
`COVER_SHEET` (`budget_processor.py` lines 85-588). -/
def knownClassCodes : List String :=
  ["A", "B", "C", "D", "E", "F", "G", "H", "I", "J", "K", "L", "M", "M2", "N", "O", "P"]

/-- `CLASS_MAPPINGS[class_code]['required_fields']`: every class entry
lists `['line_number', 'description']`; an unknown code (or
`COVER_SHEET`, whose entry has no `required_fields` key) raises
`KeyError`, modelled as `none`. -/
def classRequiredFields? (code : String) : Option (List String) :=
  if knownClassCodes.contains code then some ["line_number", "description"]
  else Option.none

/-- The `CLASS_MAPPINGS` table projected to `ClassMapping`: `A`, `B`, `G`
and `M` have P&W cells; `K`, `L` and `O` have a client total cell. -/
def classMappings : List (String × ClassMapping) :=
  knownClassCodes.map (fun code =>
    (code, ⟨["line_number", "description"],
      code = "A" || code = "B" || code = "G" || code = "M",
      code = "K" || code = "L" || code = "O"⟩))

/-- `BudgetProcessor._validate_line_item(line_item, class_code, row_number)`
(`budget_processor.py` lines 805-833): required-field messages (note the
required field names `line_number`/`description` differ from the line-item
keys `line_item_number`/`line_item_description`, so these two messages
fire on every item), rate-without-days messages for both sides, and the
class-B OT pairing messages.  The row number is only logged. -/
def validateLineItem (lineItem : Dict) (classCode : String) : Except PyErr (List String) :=
  match classRequiredFields? classCode with
  | Option.none => Except.error .keyError
  | some requiredFields =>
    let msgs1 := requiredFields.filterMap (fun f =>
      if (dictGetV lineItem f).truthy then Option.none
      else some ("Missing required field: " ++ f))
    let msgs2 :=
      if (dictGetV lineItem "estimate_rate").truthy &&
          !(dictGetV lineItem "estimate_days").truthy then
        ["Has estimate rate but missing days"]
      else []
    let msgs3 :=
      if (dictGetV lineItem "actual_rate").truthy &&
          !(dictGetV lineItem "actual_days").truthy then
        ["Has actual rate but missing days"]
      else []
    let msgs4 :=
      if classCode = "B" then
        (if (dictGetV lineItem "estimate_ot_rate").truthy &&
            !(dictGetV lineItem "estimate_ot_hours").truthy then
          ["Has OT rate but missing hours"]
        else []) ++
        (if (dictGetV lineItem "estimate_ot_hours").truthy &&
            !(dictGetV lineItem "estimate_ot_rate").truthy then
          ["Has OT hours but missing rate"]
        else [])
      else []
    Except.ok (msgs1 ++ msgs2 ++ msgs3 ++ msgs4)

/-- A processed line item: the Python dict minus its two validation keys,
which are carried as the `validationStatus`/`validationMessages` fields
(their final assigned values, `budget_processor.py` lines 986-989). -/
structure LineItem where
  data : Dict
  validationStatus : String
  validationMessages : List String

deriving DecidableEq, Repr

/-- `row[i] if len(row) > i else None`. -/
def rowGet (row : List PyVal) (i : ℕ) : PyVal := (row.get? i).getD .none

/-- The money-display normalization applied to total fields in
`_process_line_item`:
`x if isinstance(x, str) and x.startswith('$') else f"${x}" if x else None`. -/
def moneyFmtField (v : PyVal) : PyVal :=
  if v.isStr && pyStartsWith (pyStr v) "$" then v
  else if v.truthy then .str ("$" ++ pyStr v) else PyVal.none

/-- The per-class positional field layout of `_process_line_item`
(`budget_processor.py` lines 854-974), returning the fields added to the
line item (in insertion order) and the messages the `M2`/`L` branches
write into the dict's `validation_messages` key — a value that lines
986-989 later overwrite with the `_validate_line_item` result, so it
never reaches the returned item. -/
def classBranchFields (classCode : String) (row : List PyVal) (classTotals : Dict) :
    List (String × PyVal) × List String :=
  if classCode = "M2" then
    let estimateRate := rowGet row 4
    let estimateDays := rowGet row 3
    ([("estimate_number", rowGet row 2), ("estimate_days", estimateDays),
      ("estimate_rate", estimateRate), ("estimate_total", moneyFmtField (rowGet row 5)),
      ("actual_total", moneyFmtField (rowGet row 6))],
     if estimateRate.truthy && !estimateDays.truthy &&
        !(pyEndsWith (pyStr estimateRate) "%") then
       ["Has estimate rate but missing days"]
     else [])
  else if classCode = "L" then
    let estimateRate := rowGet row 3
    let estimateDays := rowGet row 2
    ([("estimate_days", estimateDays), ("estimate_rate", estimateRate),
      ("estimate_total", moneyFmtField (rowGet row 4)), ("actual_hours", rowGet row 5),
      ("actual_total", moneyFmtField (rowGet row 6))] ++
      (if dictHas classTotals "class_client_total" then
        [("class_client_total", dictGetV classTotals "class_client_total")]
      else []),
     if estimateRate.truthy && !estimateDays.truthy then
       ["Has estimate rate but missing days"]
     else [])
  else if classCode = "K" then
    ([("estimate_hours", rowGet row 2), ("estimate_rate", rowGet row 3),
      ("estimate_total", rowGet row 4), ("actual_hours", rowGet row 5),
      ("actual_total", rowGet row 6)], [])
  else if classCode = "A" then
    ([("estimate_days", rowGet row 2), ("estimate_rate", rowGet row 3),
      ("estimate_total", rowGet row 4), ("actual_days", rowGet row 5),
      ("actual_rate", rowGet row 6), ("actual_total", rowGet row 7)], [])
  else if classCode = "B" then
    ([("estimate_days", rowGet row 2), ("estimate_rate", rowGet row 3),
      ("estimate_ot_rate", rowGet row 4), ("estimate_ot_hours", rowGet row 5),
      ("estimate_total", rowGet row 6), ("actual_days", rowGet row 7),
      ("actual_rate", rowGet row 8), ("actual_total", rowGet row 9)], [])
  else if classCode = "F" || classCode = "H" then
    ([("estimate_number", rowGet row 2), ("estimate_rate", rowGet row 3),
      ("estimate_total", rowGet row 4), ("actual_total", rowGet row 5)], [])
  else if classCode = "G" then
    ([("estimate_days", rowGet row 2), ("estimate_rate", rowGet row 3),
      ("estimate_total", rowGet row 4), ("actual_total", rowGet row 5)], [])
  else if classCode = "I" || classCode = "J" then
    ([("estimate_number", rowGet row 2), ("estimate_days", rowGet row 3),
      ("estimate_rate", rowGet row 4), ("estimate_total", rowGet row 5),
      ("actual_total", rowGet row 6)], [])
  else if classCode = "O" then
    ([("estimate_hours", rowGet row 2), ("estimate_rate", rowGet row 3),
      ("estimate_total", rowGet row 4), ("actual_hours", rowGet row 5),
      ("actual_total", rowGet row 6)] ++
      (if dictHas classTotals "class_client_total" then
        [("class_client_total", dictGetV classTotals "class_client_total")]
      else []), [])
  else
    ([("estimate_number", rowGet row 2), ("estimate_days", rowGet row 3),
      ("estimate_rate", rowGet row 4), ("estimate_total", rowGet row 5),
      ("actual_total", rowGet row 6)], [])

/-- `BudgetProcessor._process_line_item(row, class_code, class_name,
class_totals, row_number)` (`budget_processor.py` lines 835-1000), with
the `try` body made explicit; the enclosing `except` turning any
exception into `None` is applied by `processLineItem`.  Steps: the
class-name colon cleaning (which can only raise, on a truthy non-string),
the `row[0]`/`row[1]` dict seed with its emptiness guard, the per-class
field layout, the class-totals denormalization (a `KeyError` when a
required totals key is absent), and the final validation assignment that
overwrites any branch-written `validation_messages`. -/
def processLineItemE (row : List PyVal) (classCode : String) (className : PyVal)
    (classTotals : Dict) : Except PyErr (Option LineItem) := do
  match className with
  | .str _ => pure ()
  | v => if v.truthy then Except.error PyErr.typeError else pure ()
  let n0 ← pyIndex row 0
  let n1 ← pyIndex row 1
  if !n0.truthy || !n1.truthy then
    return Option.none
  let base : Dict := [("line_item_number", n0), ("line_item_description", n1)]
  let branch := classBranchFields classCode row classTotals
  let li1 := branch.1.foldl (fun d p => dictSet d p.1 p.2) base
  let estSub ← dictIndex classTotals "class_estimate_subtotal"
  let estTot ← dictIndex classTotals "class_estimate_total"
  let actSub ← dictIndex classTotals "class_actual_subtotal"
  let actTot ← dictIndex classTotals "class_actual_total"
  let li2 := dictSet (dictSet (dictSet (dictSet (dictSet (dictSet li1
    "class_estimate_subtotal" estSub)
    "class_estimate_pnw" (dictGetD classTotals "class_estimate_pnw" PyVal.none))
    "class_estimate_total" estTot)
    "class_actual_subtotal" actSub)
    "class_actual_pnw" (dictGetD classTotals "class_actual_pnw" PyVal.none))
    "class_actual_total" actTot
  let msgs ← validateLineItem li2 classCode
  let status := if msgs.isEmpty then "valid" else "warning"
  return some ⟨li2, status, msgs⟩

/-- `_process_line_item` with its `except` clause: any exception is logged
and the row contributes `None`. -/
def processLineItem (row : List PyVal) (classCode : String) (className : PyVal)
    (classTotals : Dict) (rowNumber : ℕ) : Option LineItem :=
  match processLineItemE row classCode className classTotals with
  | Except.ok r => r
  | Except.error _ => Option.none

/-- `results[i][0][0] if results[i] and results[i][0] else "$0.00"` from
`_get_class_totals` (an out-of-range index raises before the truthiness
test, as in Python). -/
def totalsCellAt (results : List (List (List PyVal))) (i : ℕ) : Except PyErr PyVal := do
  let entry ← pyIndex results i
  match entry with
  | [] => pure (PyVal.str "$0.00")
  | row0 :: _ =>
    match row0 with
    | [] => pure (PyVal.str "$0.00")
    | v :: _ => pure v

/-- The `$`-prefix normalization of `_get_class_totals`:
`value if isinstance(value, str) and value.startswith('$') else
(f"${value}" if value else "$0.00")`. -/
def ensureDollar (v : PyVal) : PyVal :=
  if v.isStr && pyStartsWith (pyStr v) "$" then v
  else if v.truthy then .str ("$" ++ pyStr v) else .str "$0.00"

/-- `BudgetProcessor._get_class_totals` (`budget_processor.py` lines
737-803), consuming the batched results positionally as the source does
(`result_index`): subtotals first, then P&W cells when the mapping has
them (`None` placeholders otherwise), then totals, then the client total
when present.  (The request list built at lines 743-756 interleaves the
estimate/actual ranges differently — a source quirk that does not matter
here because `results` is already the fetched response.) -/
def getClassTotals (hasPw hasClientTotal : Bool) (results : List (List (List PyVal))) :
    Except PyErr Dict := do
  let v0 ← totalsCellAt results 0
  let v1 ← totalsCellAt results 1
  let d1 : Dict := [("class_estimate_subtotal", ensureDollar v0),
                    ("class_actual_subtotal", ensureDollar v1)]
  if hasPw then
    let v2 ← totalsCellAt results 2
    let v3 ← totalsCellAt results 3
    let v4 ← totalsCellAt results 4
    let v5 ← totalsCellAt results 5
    let d2 := d1 ++ [("class_estimate_pnw", ensureDollar v2),
                     ("class_actual_pnw", ensureDollar v3),
                     ("class_estimate_total", ensureDollar v4),
                     ("class_actual_total", ensureDollar v5)]
    if hasClientTotal then
      let v6 ← totalsCellAt results 6
      pure (d2 ++ [("class_client_total", ensureDollar v6)])
    else pure d2
  else
    let d2 := d1 ++ [("class_estimate_pnw", PyVal.none), ("class_actual_pnw", PyVal.none)]
    let v2 ← totalsCellAt results 2
    let v3 ← totalsCellAt results 3
    let d3 := d2 ++ [("class_estimate_total", ensureDollar v2),
                     ("class_actual_total", ensureDollar v3)]
    if hasClientTotal then
      let v4 ← totalsCellAt results 4
      pure (d3 ++ [("class_client_total", ensureDollar v4)])
    else pure d3

/-- `BudgetProcessor._get_class_name(header_values, class_code, mapping,
spreadsheet_id, sheet_title)` (`budget_processor.py` lines 1002-1023):
empty header → `None`; a second header cell is preferred; else a combined
`"CODE: Name"` header is split on the first colon (this `startswith` call
raises `AttributeError` on a non-string header cell); else the name cell
is re-read (`nameFetch` holds that read's outcome); else `None`. -/
def getClassName (headerValues : List (List PyVal)) (classCode : String)
    (nameFetch : Except PyErr (List (List PyVal))) : Except PyErr (Option PyVal) := do
  if headerValues = [] then
    return Option.none
  let hv0 ← pyIndex headerValues 0
  if hv0.length > 1 then
    let v ← pyIndex hv0 1
    return some v
  let headerText : PyVal :=
    match hv0 with
    | [] => PyVal.str ""
    | v :: _ => v
  match headerText with
  | .str s =>
    if pyStartsWith s (classCode ++ ":") then
      return some (PyVal.str (pyStrip (pySplitAfter s ':')))
    else
      let nameValues ← nameFetch
      match nameValues with
      | [] => return Option.none
      | nv0 :: _ =>
        if nv0 ≠ [] then
          let v ← pyIndex nv0 0
          return some v
        else
          return Option.none
  | _ => Except.error PyErr.attributeError

/-- The nested `clean_money_value(value)` of `_process_class`
(`budget_processor.py` lines 1437-1457): falsy → `0.0`; strings lose `$`,
a trailing `%` divides by 100, `,` is stripped; every conversion failure
falls back to `0.0` (the whole body sits in a `try`). -/
def cleanMoneyValue (value : PyVal) : ℚ :=
  if !value.truthy then 0
  else
    match value with
    | .str s =>
      let s1 := pyReplace s "$" ""
      if pyEndsWith s1 "%" then
        match pyFloatParse (pyRstripChar s1 '%') with
        | some q => q / 100
        | Option.none => 0
      else
        match pyFloatParse (pyReplace s1 "," "") with
        | some q => q
        | Option.none => 0
    | v =>
      match pyFloat v with
      | some q => q
      | Option.none => 0

/-- `BudgetClass` from `src/budget_sync/models/budget.py` (lines 70-107):
the eight scalar fields, the line items, and the `ValidationResult` that
`__post_init__._validate` fills in. -/
structure BudgetClassM where
  classCode : String
  className : PyVal
  estimateSubtotal : ℚ
  estimatePnw : ℚ
  estimateTotal : ℚ
  actualSubtotal : ℚ
  actualPnw : ℚ
  actualTotal : ℚ
  lineItems : List LineItem
  validationIsValid : Bool
  validationMessages : List String

deriving DecidableEq, Repr

/-- The `BudgetClass` constructor including `__post_init__._validate`
(`models/budget.py` lines 84-94): a falsy code or name appends
`"Missing code or name"` and clears `is_valid`; an empty line-item list
appends `"No line items found"`. -/
def mkBudgetClass (classCode : String) (className : PyVal)
    (eSub ePnw eTot aSub aPnw aTot : ℚ) (lineItems : List LineItem) : BudgetClassM :=
  let headMsgs : List String × Bool :=
    if classCode = "" || !className.truthy then (["Missing code or name"], false)
    else ([], true)
  let tailMsgs : List String := if lineItems.isEmpty then ["No line items found"] else []
  ⟨classCode, className, eSub, ePnw, eTot, aSub, aPnw, aTot, lineItems,
    headMsgs.2, headMsgs.1 ++ tailMsgs⟩

/-- The row loop of `_process_class` (`budget_processor.py` lines
1418-1431), with `enumerate(data_values, start=1)`: empty rows and rows
shorter than 2 are skipped, the rest go through `_process_line_item` and
the `None` results are dropped. -/
def processRowsAux (classCode : String) (className : PyVal) (classTotals : Dict) :
    ℕ → List (List PyVal) → List LineItem
  | _, [] => []
  | n, row :: rest =>
    let tail := processRowsAux classCode className classTotals (n + 1) rest
    if row = [] then tail
    else if row.length < 2 then tail
    else
      match processLineItem row classCode className classTotals n with
      | some li => li :: tail
      | Option.none => tail

/-- The accumulated line items of `_process_class`. -/
def processRows (dataValues : List (List PyVal)) (classCode : String) (className : PyVal)
    (classTotals : Dict) : List LineItem :=
  processRowsAux classCode className classTotals 1 dataValues

/-- `BudgetProcessor._process_class(spreadsheet_id, sheet_title,
class_code, mapping)` (`budget_processor.py` lines 1383-1470), with each
remote read replaced by its fetched outcome, in source order: the header
range read, the name-cell fallback read inside `_get_class_name`, the
line-item range read, and the batched summary-cell read consumed by
`_get_class_totals`.  Empty header values, an unresolved (falsy) class
name, empty data values, or zero surviving line items give `None`;
otherwise the `BudgetClass` is built from `clean_money_value` of the
fetched totals. -/
def processClass (headerFetch : Except PyErr (List (List PyVal)))
    (nameFetch : Except PyErr (List (List PyVal)))
    (dataFetch : Except PyErr (List (List PyVal)))
    (totalsFetch : Except PyErr (List (List (List PyVal))))
    (classCode : String) (mapping : ClassMapping) : Except PyErr (Option BudgetClassM) := do
  let headerValues ← headerFetch
  if headerValues = [] then
    return Option.none
  let classNameOpt ← getClassName headerValues classCode nameFetch
  let className : PyVal :=
    match classNameOpt with
    | some v => v
    | Option.none => PyVal.none
  if !className.truthy then
    return Option.none
  let dataValues ← dataFetch
  if dataValues = [] then
    return Option.none
  let results ← totalsFetch
  let classTotals ← getClassTotals mapping.hasPw mapping.hasClientTotal results
  let lineItems := processRows dataValues classCode className classTotals
  if lineItems = [] then
    return Option.none
  let estSub ← dictIndex classTotals "class_estimate_subtotal"
  let estTot ← dictIndex classTotals "class_estimate_total"
  let actSub ← dictIndex classTotals "class_actual_subtotal"
  let actTot ← dictIndex classTotals "class_actual_total"
  return some (mkBudgetClass classCode className
    (cleanMoneyValue estSub)
    (cleanMoneyValue (dictGetD classTotals "class_estimate_pnw" (PyVal.str "0")))
    (cleanMoneyValue estTot)
    (cleanMoneyValue actSub)
    (cleanMoneyValue (dictGetD classTotals "class_actual_pnw" (PyVal.str "0")))
    (cleanMoneyValue actTot)
    lineItems)

/-- The remote reads one iteration of the `process_budget` class loop can
issue: its own header existence check (`budget_processor.py` line 1514)
and the four reads of `_process_class`. -/
structure ClassFetches where
  header1 : Except PyErr (List (List PyVal))
  header2 : Except PyErr (List (List PyVal))
  nameCell : Except PyErr (List (List PyVal))
  data : Except PyErr (List (List PyVal))
  totals : Except PyErr (List (List (List PyVal)))

/-- One iteration of the `process_budget` class loop body
(`budget_processor.py` lines 1508-1535): fetch the header, `continue`
when it is empty, else run `_process_class`. -/
def runBudgetClass (classCode : String) (mapping : ClassMapping) (f : ClassFetches) :
    Except PyErr (Option BudgetClassM) := do
  let headerValues ← f.header1
  if headerValues = [] then
    return Option.none
  processClass f.header2 f.nameCell f.data f.totals classCode mapping

/-- The `process_budget` class loop (`budget_processor.py` lines
1504-1541): each class is tried in order; a `None` result or a skipped
header contributes nothing, and any exception is caught and logged so the
remaining classes still run.  Returns the `classes` mapping in insertion
order. -/
def processBudgetClasses :
    List (String × ClassMapping × ClassFetches) → List (String × BudgetClassM)
  | [] => []
  | t :: rest =>
    match runBudgetClass t.1 t.2.1 t.2.2 with
    | Except.ok (some bc) => (t.1, bc) :: processBudgetClasses rest
    | Except.ok Option.none => processBudgetClasses rest
    | Except.error _ => processBudgetClasses rest

/-- The complete repertoire of per-line validation messages that
`_validate_line_item` can produce (for any class and any input). -/
def allowedValidationMessages : List String :=
  ["Missing required field: line_number", "Missing required field: description",
   "Has estimate rate but missing days", "Has actual rate but missing days",
   "Has OT rate but missing hours", "Has OT hours but missing rate"]

/-- A minimal class-totals dict as `_get_class_totals` would return for a
class without P&W data (the four keys `_process_line_item` reads with
`[]`-indexing). -/
def totalsPlain : Dict :=
  [("class_estimate_subtotal", PyVal.str "$0.00"), ("class_actual_subtotal", PyVal.str "$0.00"),
   ("class_estimate_total", PyVal.str "$0.00"), ("class_actual_total", PyVal.str "$0.00")]

/-- Header fetch for the concrete class-A scenario. -/
def headerFetchA : Except PyErr (List (List PyVal)) :=
  Except.ok [[PyVal.str "A", PyVal.str "PREPRODUCTION & WRAP CREW"]]

/-- The class-A example line rows (two crew lines: 5 days at 1400 and 5
days at 1200, sheet totals 7000 and 6000). -/
def dataFetchA : Except PyErr (List (List PyVal)) :=
  Except.ok
    [[PyVal.str "1", PyVal.str "Line Producer", PyVal.str "5", PyVal.str "1400", PyVal.str "7000"],
     [PyVal.str "2", PyVal.str "Assistant Director", PyVal.str "5", PyVal.str "1200",
      PyVal.str "6000"]]

/-- Summary-cell results for the class-A scenario whose sheet-stated
estimate subtotal (`results[0][0][0]`) is `$99,999.00` — far from the
computed `5 × 1400 + 5 × 1200 = 13000`. -/
def totalsFetchMismatch : Except PyErr (List (List (List PyVal))) :=
  Except.ok [[[PyVal.str "$99,999.00"]], [[PyVal.str "$0.00"]], [[PyVal.str "$0.00"]],
             [[PyVal.str "$0.00"]], [[PyVal.str "$0.00"]], [[PyVal.str "$0.00"]]]

/-- The `ClassMapping` projection of the class-A entry (`A` has P&W cells
and no client total). -/
def mappingA : ClassMapping := ⟨["line_number", "description"], true, false⟩

/-- One error row of `validate_budget_rows`
(`{'row_number': i, 'data': row, 'errors': errors}`). -/
structure ErrorRow where
  rowNumber : ℕ
  data : Dict
  errors : List String

deriving DecidableEq, Repr

/-- Whether `float(v).is_integer()` holds (`validate_budget_row`'s integer
check, reached only for int/float values). -/
def pyIsIntegerNum (v : PyVal) : Bool :=
  match pyFloat v with
  | some q => q.den = 1
  | Option.none => false

/-- The `required_fields` table of `validate_budget_row`
(`utils/data_validation.py` lines 30-39), with the expected type's name. -/
def requiredFieldsTyped : List (String × String) :=
  [("upload_id", "str"), ("user_email", "str"), ("budget_name", "str"),
   ("upload_timestamp", "str"), ("class_code", "str"), ("class_name", "str"),
   ("line_item_number", "int"), ("line_item_description", "str")]

/-- The required-field loop body of `validate_budget_row` (lines 42-58):
missing key, `None` value, the special integer check (`isinstance(value,
(int, float)) and float(value).is_integer()`), or the plain type check. -/
def checkRequiredField (row : Dict) (field : String) (expected : String) : List String :=
  match dictGet? row field with
  | Option.none => ["Missing required field: " ++ field]
  | some v =>
    if v = PyVal.none then ["Required field cannot be NULL: " ++ field]
    else if expected = "int" then
      if !v.isNumeric || !(pyIsIntegerNum v) then
        ["Invalid integer value for " ++ field ++ ": " ++ pyStr v]
      else []
    else
      if !v.isStr then
        ["Invalid type for " ++ field ++ ": expected " ++ expected ++ ", got " ++ pyTypeName v]
      else []

/-- The nullable numeric fields of `validate_budget_row` (lines 61-64). -/
def numericFields : List String :=
  ["estimate_days", "estimate_rate", "estimate_total",
   "actual_days", "actual_rate", "actual_total"]

/-- The numeric-field loop body of `validate_budget_row` (lines 66-73):
non-`None` present values that are neither int/float nor `float`-parsable
strings produce a message. -/
def checkNumericField (row : Dict) (field : String) : List String :=
  match dictGet? row field with
  | Option.none => []
  | some v =>
    if v = PyVal.none then []
    else if v.isNumeric then []
    else
      match pyFloat v with
      | some _ => []
      | Option.none => ["Invalid numeric value for " ++ field ++ ": " ++ pyStr v]

/-- `validate_budget_row(row_data)` (`utils/data_validation.py` lines
22-87), parameterised by the `datetime.fromisoformat` oracle `isoOk` (an
external library call; only its success or failure is observable here).
The `class_code` and `upload_timestamp` extra checks call `.strip()` and
`.replace(...)` on the raw value, so a truthy non-string raises
`AttributeError`, which the `except (ValueError, TypeError)` clause does
not catch.  Returns `(len(errors) == 0, errors)`. -/
def validateBudgetRow (isoOk : String → Bool) (row : Dict) :
    Except PyErr (Bool × List String) := do
  let errs1 := (requiredFieldsTyped.map (fun p => checkRequiredField row p.1 p.2)).flatten
  let errs2 := (numericFields.map (checkNumericField row)).flatten
  let errs3 ←
    if dictHas row "class_code" && (dictGetV row "class_code").truthy then
      match dictGetV row "class_code" with
      | .str s =>
        if pyStrip s = "" then pure ["class_code cannot be empty string"] else pure []
      | _ => Except.error PyErr.attributeError
    else pure []
  let errs4 ←
    if dictHas row "upload_timestamp" && (dictGetV row "upload_timestamp").truthy then
      match dictGetV row "upload_timestamp" with
      | .str s =>
        if isoOk (pyReplace s "Z" "+00:00") then pure []
        else pure ["Invalid upload_timestamp format. Expected ISO format"]
      | _ => Except.error PyErr.attributeError
    else pure []
  let errors := errs1 ++ errs2 ++ errs3 ++ errs4
  pure (errors.isEmpty, errors)

/-- The loop of `validate_budget_rows` (lines 97-106) with
`enumerate(rows, 1)`. -/
def validateBudgetRowsAux (isoOk : String → Bool) :
    List Dict → ℕ → Except PyErr (List Dict × List ErrorRow)
  | [], _ => Except.ok ([], [])
  | r :: rs, i => do
    let res ← validateBudgetRow isoOk r
    let rest ← validateBudgetRowsAux isoOk rs (i + 1)
    if res.1 then pure (r :: rest.1, rest.2)
    else pure (rest.1, ⟨i, r, res.2⟩ :: rest.2)

/-- `validate_budget_rows(rows)` (`utils/data_validation.py` lines
89-108): valid rows and wrapped error rows, in input order. -/
def validateBudgetRows (isoOk : String → Bool) (rows : List Dict) :
    Except PyErr (List Dict × List ErrorRow) :=
  validateBudgetRowsAux isoOk rows 1

/-- Whether `validate_budget_row` returns a clean result for a row. -/
def rowValid (isoOk : String → Bool) (row : Dict) : Bool :=
  match validateBudgetRow isoOk row with
  | Except.ok p => p.1
  | Except.error _ => false

def isoOk0 (s : String) : Bool := s == "2024-01-01T00:00:00+00:00"

def goodRow : Dict :=
  [("upload_id", PyVal.str "u"), ("user_email", PyVal.str "e"),
   ("budget_name", PyVal.str "b"), ("upload_timestamp", PyVal.str "2024-01-01T00:00:00Z"),
   ("class_code", PyVal.str "A"), ("class_name", PyVal.str "N"),
   ("line_item_number", PyVal.int 3), ("line_item_description", PyVal.str "d")]

def badRow : Dict := [("upload_id", PyVal.int 5)]

def badRowErrors : List String :=
  ["Invalid type for upload_id: expected str, got int",
   "Missing required field: user_email", "Missing required field: budget_name",
   "Missing required field: upload_timestamp", "Missing required field: class_code",
   "Missing required field: class_name", "Missing required field: line_item_number",
   "Missing required field: line_item_description"]

theorem parseCellRefAux_letters (ls : List Char) (rest : List Char)
    (hl : ∀ c ∈ ls, c.isAlpha = true) (col row : Int) :
    parseCellRefAux (ls ++ rest) col row =
      parseCellRefAux rest (ls.foldl (fun a c => a * 26 + ((c.toUpper.toNat : Int) - 65)) col) row := by
  induction ls generalizing col with
  | nil => simp
  | cons c cs ih =>
    have hc : c.isAlpha = true := hl c (by simp)
    simp only [List.cons_append, parseCellRefAux, hc, if_pos, List.foldl_cons]
    exact ih (fun d hd => hl d (by simp [hd])) _

theorem isDigit_not_isAlpha {c : Char} (h : c.isDigit = true) : c.isAlpha = false := by
  simp only [Char.isDigit, Bool.and_eq_true, decide_eq_true_eq, UInt32.le_def,
    UInt32.lt_def, BitVec.le_def, BitVec.lt_def] at h
  simp only [Char.isAlpha, Char.isUpper, Char.isLower, Bool.or_eq_false_iff,
    Bool.and_eq_false_iff, decide_eq_false_iff_not, not_le, UInt32.le_def,
    UInt32.lt_def, BitVec.le_def, BitVec.lt_def]
  have e1 : ((48 : UInt32)).toBitVec.toNat = 48 := rfl
  have e2 : ((57 : UInt32)).toBitVec.toNat = 57 := rfl
  have e3 : ((65 : UInt32)).toBitVec.toNat = 65 := rfl
  have e4 : ((90 : UInt32)).toBitVec.toNat = 90 := rfl
  have e5 : ((97 : UInt32)).toBitVec.toNat = 97 := rfl
  have e6 : ((122 : UInt32)).toBitVec.toNat = 122 := rfl
  omega

theorem parseCellRefAux_digits (ds : List Char)
    (hd : ∀ c ∈ ds, c.isDigit = true) (col row : Int) :
    parseCellRefAux ds col row =
      (col, ds.foldl (fun a c => a * 10 + ((c.toNat : Int) - 48)) row) := by
  induction ds generalizing row with
  | nil => simp [parseCellRefAux]
  | cons c cs ih =>
    have hc : c.isAlpha = false := isDigit_not_isAlpha (hd c (by simp))
    simp only [parseCellRefAux, hc, Bool.false_eq_true, if_neg, List.foldl_cons,
      not_false_eq_true]
    exact ih (fun d hdm => hd d (by simp [hdm])) _

/-- C3 (counterexample).  The claim says the letter prefix accumulates as
base-26 with `AA = 26` and that a label with no digits or no letters fails
with a `MalformedAddress` error.  On the code, `_parse_cell_ref "AA1"`
yields column `0` (the fold is `(0 * 26 + 0) * 26 + 0`), not `26`, and the
all-letter label `"ABC"` is parsed without any error, yielding row `-1` and
column `28`. -/
theorem C3_counterexample :
    parseCellRef "AA1" = (0, 0) ∧ (0 : Int) ≠ 26 ∧ parseCellRef "ABC" = (-1, 28) := by
  refine ⟨by decide, by decide, by decide⟩

/-- C3 (amended).  For a label made of a letter prefix followed by a digit
suffix, `_parse_cell_ref` returns `(row - 1, col)` where the letters fold
left as `col * 26 + (A = 0 .. Z = 25)` — so a multi-letter prefix such as
`AA` collapses to `0`, not `26` — and the digits fold as base 10, the row
being normalized from 1-based to 0-based.  The parser never fails: a label
with no digits yields row `-1` and a label with no letters yields column
`0` (special cases of this statement with an empty suffix or prefix). -/
theorem C3_parse_cell_ref_amended (ls ds : List Char)
    (hl : ∀ c ∈ ls, c.isAlpha = true) (hd : ∀ c ∈ ds, c.isDigit = true) :
    parseCellRef (String.mk (ls ++ ds)) = (rowOfDigits ds - 1, colOfLetters ls) := by
  unfold parseCellRef
  have h1 : (String.mk (ls ++ ds)).data = ls ++ ds := rfl
  rw [h1, parseCellRefAux_letters ls ds hl 0 0, parseCellRefAux_digits ds hd]
  rfl

/-- C3 (witness): the amended statement evaluated on the concrete label
`"AB12"`, whose hypotheses hold by computation. -/
theorem C3_witness : parseCellRef (String.mk (['A', 'B'] ++ ['1', '2'])) = (11, 1) := by
  have h := C3_parse_cell_ref_amended ['A', 'B'] ['1', '2'] (by decide) (by decide)
  exact h.trans (by decide)

theorem string_data_append (a b : String) : (a ++ b).data = a.data ++ b.data := rfl

theorem pyStartsWith_dollar_append (t : String) : pyStartsWith ("$" ++ t) "$" = true := by
  simp [pyStartsWith, string_data_append, List.isPrefixOf]

/-- C10.  `_format_money` always returns a string starting with `$`
(`None` and unparsable inputs give `"$0.00"`), and it is idempotent:
feeding its own output back returns that output unchanged. -/
theorem C10_format_money (v : PyVal) :
    pyStartsWith (formatMoney v) "$" = true ∧
      formatMoney (PyVal.str (formatMoney v)) = formatMoney v := by
  have hstart : pyStartsWith (formatMoney v) "$" = true := by
    cases v with
    | none => decide
    | str s =>
      by_cases h : pyStartsWith s "$"
      · simp [formatMoney, h]
      · simp only [formatMoney, h, Bool.false_eq_true, if_neg, not_false_eq_true]
        cases pyFloatParse (pyReplace s "," "") with
        | none => decide
        | some q => exact pyStartsWith_dollar_append _
    | bool b => cases b <;> exact pyStartsWith_dollar_append _
    | int n => exact pyStartsWith_dollar_append _
    | num q => exact pyStartsWith_dollar_append _
  refine ⟨hstart, ?_⟩
  show (if pyStartsWith (formatMoney v) "$" then formatMoney v
        else
          match pyFloatParse (pyReplace (formatMoney v) "," "") with
          | some q => "$" ++ formatFloat2 q
          | Option.none => "$0.00") = formatMoney v
  rw [hstart]
  simp

/-- C6 (counterexample).  The claim says a trailing `%` divides by 100 only
when parsing a percentage-typed (P&W percentage) field, and that
unparsable input yields `0.0`.  On the code, `_parse_number` divides any
trailing-`%` value by 100 — here on the `estimate_days` day-count field of
a detail record, where `"50%"` becomes `0.5` — and a malformed value
ending in `%` raises `ValueError` instead of returning `0.0`. -/
theorem C6_counterexample :
    detailEstimateDays [("estimate_days", PyVal.str "50%")] = Except.ok (1 / 2) ∧
      parseNumber (PyVal.str "N/A%") = Except.error PyErr.valueError := by
  constructor
  · have h : detailEstimateDays [("estimate_days", PyVal.str "50%")] =
        Except.ok ((1 * ((50 : ℕ) : ℚ)) / 100) := rfl
    rw [h]
    norm_num
  · decide

theorem pyFloatParse_empty : pyFloatParse "" = Option.none := rfl

theorem parseNumberBody_paren (s : String) (q : ℚ)
    (hq : pyFloatParse (pyReplace (pyReplace s "$" "") "," "") = some q) :
    parseNumberBody ("(" ++ s ++ ")") = Except.ok (-q) := by
  have hdata : (("(" ++ s ++ ")") : String).data = '(' :: (s.data ++ [')']) := by
    have h : (("(" ++ s ++ ")") : String).data = "(".data ++ s.data ++ ")".data := rfl
    simp [h]
  have hrev : (("(" ++ s ++ ")") : String).data.reverse = ')' :: (s.data.reverse ++ ['(']) := by
    simp [hdata]
  have hpct : pyEndsWith ("(" ++ s ++ ")") "%" = false := by
    simp [pyEndsWith, hrev, List.isPrefixOf_cons₂]
  have hneg : (pyStartsWith ("(" ++ s ++ ")") "(" && pyEndsWith ("(" ++ s ++ ")") ")") = true := by
    simp [pyStartsWith, pyEndsWith, hdata, hrev, List.isPrefixOf_cons₂]
  have hinner : ((("(" ++ s ++ ")") : String).data.drop 1).dropLast = s.data := by
    simp [hdata]
  have hne : pyReplace (pyReplace s "$" "") "," "" ≠ "" := by
    intro hc
    rw [hc, pyFloatParse_empty] at hq
    exact Option.noConfusion hq
  have hcl : pyReplace (pyReplace (⟨s.data⟩ : String) "$" "") "," "" =
      pyReplace (pyReplace s "$" "") "," "" := rfl
  unfold parseNumberBody
  rw [hpct, hneg]
  simp only [Bool.false_eq_true, Bool.true_eq_false, if_false, if_true, ite_true,
    ite_false, hinner, hcl, reduceIte]
  rw [if_neg hne]
  show (match pyFloatParse (pyReplace (pyReplace s "$" "") "," "") with
        | some r => Except.ok (-r)
        | Option.none => Except.ok 0) = Except.ok (-q)
  rw [hq]

theorem parseNumberBody_percent (s : String) (q : ℚ)
    (hq : pyFloatParse (pyRstripChar (s ++ "%") '%') = some q) :
    parseNumberBody (s ++ "%") = Except.ok (q / 100) := by
  have hdata : ((s ++ "%") : String).data = s.data ++ ['%'] := rfl
  have hpct : pyEndsWith (s ++ "%") "%" = true := by
    simp [pyEndsWith, hdata, List.isPrefixOf_cons₂]
  unfold parseNumberBody
  rw [hpct]
  simp only [if_true, ite_true, reduceIte]
  rw [hq]

theorem parseNumberBody_unparsable (s : String)
    (hpct : pyEndsWith s "%" = false)
    (hparen : (pyStartsWith s "(" && pyEndsWith s ")") = false)
    (hclne : pyReplace (pyReplace s "$" "") "," "" ≠ "")
    (hcl : pyFloatParse (pyReplace (pyReplace s "$" "") "," "") = Option.none) :
    parseNumberBody s = Except.ok 0 := by
  unfold parseNumberBody
  rw [hpct, hparen]
  simp only [Bool.false_eq_true, if_false, ite_false, reduceIte]
  rw [if_neg hclne]
  show (match pyFloatParse (pyReplace (pyReplace s "$" "") "," "") with
        | some r => Except.ok r
        | Option.none => Except.ok 0) = Except.ok 0
  rw [hcl]

/-- C6 (amended).  `_parse_number` returns `0.0` for every falsy input
(blank, `None`, zero); on a truthy value it strips and then: a value
wrapped in literal parentheses parses as the negation of its `$`/`,`
stripped inside; a trailing `%` divides the parsed value by 100
unconditionally — `_parse_number` has no notion of a percentage-typed
field; a non-percent value whose cleaned text does not parse falls back to
`0.0` (while a malformed value ending in `%` raises `ValueError`); and
concretely `_parse_number("($1,234.56)") = -1234.56`,
`_parse_number("") = 0.0`, `_parse_number(None) = 0.0`. -/
theorem C6_parse_number_amended :
    (∀ v : PyVal, v.truthy = false → parseNumber v = Except.ok 0) ∧
    (∀ (s : String) (q : ℚ),
      pyStrip ("(" ++ s ++ ")") = "(" ++ s ++ ")" →
      pyFloatParse (pyReplace (pyReplace s "$" "") "," "") = some q →
      parseNumber (PyVal.str ("(" ++ s ++ ")")) = Except.ok (-q)) ∧
    (∀ (s : String) (q : ℚ),
      pyStrip (s ++ "%") = s ++ "%" →
      pyFloatParse (pyRstripChar (s ++ "%") '%') = some q →
      parseNumber (PyVal.str (s ++ "%")) = Except.ok (q / 100)) ∧
    (∀ s : String,
      pyStrip s = s → s ≠ "" →
      pyEndsWith s "%" = false →
      (pyStartsWith s "(" && pyEndsWith s ")") = false →
      pyReplace (pyReplace s "$" "") "," "" ≠ "" →
      pyFloatParse (pyReplace (pyReplace s "$" "") "," "") = Option.none →
      parseNumber (PyVal.str s) = Except.ok 0) ∧
    parseNumber (PyVal.str "($1,234.56)") = Except.ok (-(123456 / 100)) ∧
    parseNumber (PyVal.str "") = Except.ok 0 ∧
    parseNumber PyVal.none = Except.ok 0 := by
  refine ⟨?_, ?_, ?_, ?_, ?_, by decide, by decide⟩
  · intro v hv
    simp [parseNumber, hv]
  · intro s q hstrip hq
    have htr : (PyVal.str ("(" ++ s ++ ")")).truthy = true := by
      simp only [PyVal.truthy, bne_iff_ne, ne_eq, decide_eq_true_eq]
      intro hc
      have h2 := congrArg String.data hc
      have h : (("(" ++ s ++ ")") : String).data = "(".data ++ s.data ++ ")".data := rfl
      simp [h] at h2
    rw [parseNumber, htr, if_pos rfl]
    show parseNumberBody (pyStrip ("(" ++ s ++ ")")) = Except.ok (-q)
    rw [hstrip]
    exact parseNumberBody_paren s q hq
  · intro s q hstrip hq
    have htr : (PyVal.str (s ++ "%")).truthy = true := by
      simp only [PyVal.truthy, bne_iff_ne, ne_eq, decide_eq_true_eq]
      intro hc
      have h2 := congrArg String.data hc
      have h : ((s ++ "%") : String).data = s.data ++ "%".data := rfl
      simp [h] at h2
    rw [parseNumber, htr, if_pos rfl]
    show parseNumberBody (pyStrip (s ++ "%")) = Except.ok (q / 100)
    rw [hstrip]
    exact parseNumberBody_percent s q hq
  · intro s hstrip hne hpct hparen hclne hcl
    have htr : (PyVal.str s).truthy = true := by
      simp [PyVal.truthy, hne]
    rw [parseNumber, htr, if_pos rfl]
    show parseNumberBody (pyStrip s) = Except.ok 0
    rw [hstrip]
    exact parseNumberBody_unparsable s hpct hparen hclne hcl
  · have h : parseNumber (PyVal.str "($1,234.56)") =
        Except.ok (-(1 * (((1234 : ℕ) : ℚ) + ((56 : ℕ) : ℚ) / (10 : ℚ) ^ (2 : ℕ)))) := rfl
    rw [h]
    norm_num

/-- C6 (witness): the amended statement instantiated at concrete inputs —
`0` for the falsy clause, `"5"` inside parentheses, `"28"` before `%`, and
the unparsable `"abc"`. -/
theorem C6_witness :
    parseNumber (PyVal.int 0) = Except.ok 0 ∧
      parseNumber (PyVal.str ("(" ++ "5" ++ ")")) = Except.ok (-5) ∧
      parseNumber (PyVal.str ("28" ++ "%")) = Except.ok (28 / 100) ∧
      parseNumber (PyVal.str "abc") = Except.ok 0 := by
  have h5 : pyFloatParse (pyReplace (pyReplace "5" "$" "") "," "") = some 5 := by
    have h : pyFloatParse (pyReplace (pyReplace "5" "$" "") "," "") =
        some ((1 : ℚ) * ((5 : ℕ) : ℚ)) := rfl
    rw [h]
    norm_num
  have h28 : pyFloatParse (pyRstripChar ("28" ++ "%") '%') = some 28 := by
    have h : pyFloatParse (pyRstripChar ("28" ++ "%") '%') =
        some ((1 : ℚ) * ((28 : ℕ) : ℚ)) := rfl
    rw [h]
    norm_num
  refine ⟨C6_parse_number_amended.1 (PyVal.int 0) (by decide), ?_, ?_, ?_⟩
  · have h := C6_parse_number_amended.2.1 "5" 5 (by decide) h5
    simpa using h
  · exact C6_parse_number_amended.2.2.1 "28" 28 (by decide) h28
  · exact C6_parse_number_amended.2.2.2.1 "abc" (by decide) (by decide) (by decide)
      (by decide) (by decide) (by decide)

/-- C8.  `safe_float_convert` distinguishes missing from zero: blank,
`'#N/A'`, `None` and unparsable input give `None`, while numeric values
and currency/percent-formatted strings convert to their stripped float
value; in particular `safe_float_convert("")` is `None` while
`safe_float_convert("0") = 0.0`. -/
theorem C8_safe_float_convert :
    safe_float_convert (PyVal.str "") = Option.none ∧
    safe_float_convert PyVal.none = Option.none ∧
    safe_float_convert (PyVal.str "#N/A") = Option.none ∧
    safe_float_convert (PyVal.str "0") = some 0 ∧
    (∀ q : ℚ, safe_float_convert (PyVal.num q) = some q) ∧
    (∀ n : Int, safe_float_convert (PyVal.int n) = some (n : ℚ)) ∧
    safe_float_convert (PyVal.str "$1,234.56") = some (123456 / 100) ∧
    safe_float_convert (PyVal.str "28%") = some 28 ∧
    (∀ s : String,
      s ≠ "" → s ≠ "#N/A" →
      pyReplace (pyReplace (pyReplace (pyReplace s "$" "") "," "") " " "") "%" "" ≠ "0.00" →
      pyReplace (pyReplace (pyReplace (pyReplace s "$" "") "," "") " " "") "%" "" ≠ "0" →
      pyFloatParse
        (pyReplace (pyReplace (pyReplace (pyReplace s "$" "") "," "") " " "") "%" "") =
        Option.none →
      safe_float_convert (PyVal.str s) = Option.none) := by
  refine ⟨by decide, by decide, by decide, by decide, ?_, ?_, ?_, ?_, ?_⟩
  · intro q
    simp [safe_float_convert, PyVal.isNumeric, pyFloat]
  · intro n
    simp [safe_float_convert, PyVal.isNumeric, pyFloat]
  · have h : safe_float_convert (PyVal.str "$1,234.56") =
        some ((1 : ℚ) * (((1234 : ℕ) : ℚ) + ((56 : ℕ) : ℚ) / (10 : ℚ) ^ (2 : ℕ))) := rfl
    rw [h]
    norm_num
  · have h : safe_float_convert (PyVal.str "28%") =
        some ((1 : ℚ) * ((28 : ℕ) : ℚ)) := rfl
    rw [h]
    norm_num
  · intro s h1 h2 h3 h4 h5
    have hcond : (PyVal.str s = PyVal.none || PyVal.str s = PyVal.str "" ||
        PyVal.str s = PyVal.str "#N/A") = false := by
      simp [h1, h2]
    rw [safe_float_convert, hcond]
    simp only [Bool.false_eq_true, if_false, reduceIte, PyVal.isNumeric]
    rw [if_neg (by simp [h3, h4])]
    exact h5

/-- C8 (witness): the `C8_safe_float_convert` clauses with hypotheses,
instantiated at `2.5`, `-3` and the unparsable `"abc"`. -/
theorem C8_witness :
    safe_float_convert (PyVal.num (5 / 2)) = some (5 / 2) ∧
      safe_float_convert (PyVal.int (-3)) = some ((-3 : Int) : ℚ) ∧
      safe_float_convert (PyVal.str "abc") = Option.none := by
  refine ⟨C8_safe_float_convert.2.2.2.2.1 (5 / 2),
    C8_safe_float_convert.2.2.2.2.2.1 (-3), ?_⟩
  exact C8_safe_float_convert.2.2.2.2.2.2.2.2 "abc" (by decide) (by decide) (by decide)
    (by decide) (by decide)

/-- C4 (counterexample).  The claim says a persistent rate-limit error
causes up to 5 retries with sleeps 2, 4, 8, 16, 32 (total 62 seconds over
6 calls).  On the code, `for attempt in range(5)` with a retry only when
`attempt < max_retries - 1` makes exactly 5 calls with 4 retries, sleeping
2 + 4 + 8 + 16 = 30 seconds, before re-raising. -/
theorem C4_counterexample :
    getRangeValues (fun _ => FetchOutcome.rateLimit) = (Except.error PyErr.rateLimit, 30, 5) ∧
      (30 : ℕ) ≠ 2 + 4 + 8 + 16 + 32 ∧ (5 : ℕ) ≠ 1 + 5 := by
  refine ⟨by decide, by decide, by decide⟩

/-- C4 (amended).  Both range fetchers retry only on the rate-limit
signal, sleeping `2 * 2 ^ attempt` seconds before each retry, for at most
4 retries (5 calls in total, sleeping 2, 4, 8, 16 seconds); exhausting the
retries re-raises the rate-limit error; a non-rate-limit error is raised
immediately without a retry; and a fetch that fails with a rate-limit
error exactly twice then succeeds returns the successful result after a
total sleep of 2 + 4 = 6 seconds. -/
theorem C4_retry_amended :
    (∀ (outs : ℕ → FetchOutcome) (v : List (List PyVal)),
      outs 0 = .rateLimit → outs 1 = .rateLimit → outs 2 = .success v →
      getRangeValues outs = (Except.ok v, 6, 3)) ∧
    (∀ outs : ℕ → FetchOutcome,
      outs 0 = .otherError →
      getRangeValues outs = (Except.error PyErr.otherError, 0, 1)) ∧
    (∀ outs : ℕ → FetchOutcome,
      (∀ i, i < maxRetries → outs i = .rateLimit) →
      getRangeValues outs = (Except.error PyErr.rateLimit, 30, 5)) ∧
    (∀ (outs : ℕ → FetchOutcome) (v : List (List PyVal)),
      outs 0 = .rateLimit → outs 1 = .rateLimit → outs 2 = .success v →
      getRangeValuesBatch outs = (Except.ok v, 6, 3)) := by
  have hrange : List.range maxRetries = [0, 1, 2, 3, 4] := by decide
  refine ⟨?_, ?_, ?_, ?_⟩
  · intro outs v h0 h1 h2
    simp [getRangeValues, hrange, runAttempts, h0, h1, h2]
  · intro outs h0
    simp [getRangeValues, hrange, runAttempts, h0]
  · intro outs hall
    have h0 := hall 0 (by decide)
    have h1 := hall 1 (by decide)
    have h2 := hall 2 (by decide)
    have h3 := hall 3 (by decide)
    have h4 := hall 4 (by decide)
    simp [getRangeValues, hrange, runAttempts, h0, h1, h2, h3, h4]
  · intro outs v h0 h1 h2
    simp [getRangeValuesBatch, hrange, runAttempts, h0, h1, h2]

/-- C4 (witness): the amended statement instantiated on concrete outcome
streams — two rate limits then success, an immediate other error, and a
persistent rate limit. -/
theorem C4_witness :
    getRangeValues
        (fun i => if i < 2 then FetchOutcome.rateLimit else FetchOutcome.success [[PyVal.str "x"]]) =
      (Except.ok [[PyVal.str "x"]], 6, 3) ∧
    getRangeValues (fun _ => FetchOutcome.otherError) = (Except.error PyErr.otherError, 0, 1) ∧
    getRangeValues (fun _ => FetchOutcome.rateLimit) = (Except.error PyErr.rateLimit, 30, 5) ∧
    getRangeValuesBatch
        (fun i => if i < 2 then FetchOutcome.rateLimit else FetchOutcome.success [[PyVal.str "x"]]) =
      (Except.ok [[PyVal.str "x"]], 6, 3) := by
  refine ⟨C4_retry_amended.1 _ _ (by decide) (by decide) (by decide),
    C4_retry_amended.2.1 _ (by decide),
    C4_retry_amended.2.2.1 _ (fun i _ => by decide),
    C4_retry_amended.2.2.2 _ _ (by decide) (by decide) (by decide)⟩

theorem storeFind?_cons (p : String × VersionEntry) (ps : VersionStore) (k : String) :
    storeFind? (p :: ps) k = if p.1 = k then some p.2 else storeFind? ps k := by
  unfold storeFind?
  by_cases h : p.1 = k
  · rw [List.find?_cons_of_pos _ (by simpa using h), if_pos h]
    rfl
  · rw [List.find?_cons_of_neg _ (by simpa using h), if_neg h]

theorem storeFind?_map_self (st : VersionStore) (k : String) (e2 : VersionEntry)
    (hmem : (List.find? (fun p => p.1 = k) st).isSome = true) :
    storeFind? (st.map (fun p => if p.1 = k then (k, e2) else p)) k = some e2 := by
  induction st with
  | nil => simp at hmem
  | cons p ps ih =>
    by_cases hk : p.1 = k
    · simp only [List.map_cons, if_pos hk]
      rw [storeFind?_cons]
      simp
    · simp only [List.map_cons, if_neg hk]
      rw [storeFind?_cons, if_neg hk]
      apply ih
      rwa [List.find?_cons_of_neg _ (by simpa using hk)] at hmem

theorem storeFind?_append_self (st : VersionStore) (k : String) (e2 : VersionEntry)
    (hmem : (List.find? (fun p => p.1 = k) st).isSome = false) :
    storeFind? (st ++ [(k, e2)]) k = some e2 := by
  induction st with
  | nil => simp [storeFind?, List.find?]
  | cons p ps ih =>
    by_cases hk : p.1 = k
    · rw [List.find?_cons_of_pos _ (by simpa using hk)] at hmem
      simp at hmem
    · rw [List.cons_append, storeFind?_cons, if_neg hk]
      apply ih
      rwa [List.find?_cons_of_neg _ (by simpa using hk)] at hmem

theorem storeFind?_storeSet_self (st : VersionStore) (k : String) (e2 : VersionEntry) :
    storeFind? (storeSet st k e2) k = some e2 := by
  unfold storeSet
  cases hmem : (List.find? (fun p => p.1 = k) st).isSome with
  | true =>
    rw [if_pos rfl]
    exact storeFind?_map_self st k e2 hmem
  | false =>
    rw [if_neg (by simp)]
    exact storeFind?_append_self st k e2 hmem

/-- C5.  Version triple progression: re-processing an existing (file,
sheet) key with an unchanged content hash increments `patch_version` by 1
and leaves `minor_version` and `major_version` unchanged, both in the
returned triple and in the stored entry; a changed content hash
increments `minor_version` by 1 and resets `patch_version` to 1, again
leaving `major_version` unchanged; `major_version` is only ever assigned
when the key has never been seen before (a fresh key gets minor 0 and
patch 1). -/
theorem C5_version_progression (st : VersionStore) (fileName sheetName dateStr : String)
    (h : Int) :
    (∀ e : VersionEntry,
      storeFind? st (fileName ++ "-" ++ sheetName) = some e →
      ((h = e.lastDataHash →
          (getVersionNumbers st fileName sheetName dateStr h).2 =
            (e.majorVersion, e.minorVersion, e.patchVersion + 1) ∧
          storeFind? (getVersionNumbers st fileName sheetName dateStr h).1
              (fileName ++ "-" ++ sheetName) =
            some { e with patchVersion := e.patchVersion + 1, lastUpdated := dateStr }) ∧
       (h ≠ e.lastDataHash →
          (getVersionNumbers st fileName sheetName dateStr h).2 =
            (e.majorVersion, e.minorVersion + 1, 1) ∧
          storeFind? (getVersionNumbers st fileName sheetName dateStr h).1
              (fileName ++ "-" ++ sheetName) =
            some { e with minorVersion := e.minorVersion + 1, patchVersion := 1,
                          lastDataHash := h, lastUpdated := dateStr }))) ∧
    (storeFind? st (fileName ++ "-" ++ sheetName) = Option.none →
      ∃ m, (getVersionNumbers st fileName sheetName dateStr h).2 = (m, 0, 1)) := by
  constructor
  · intro e he
    constructor
    · intro hh
      simp only [getVersionNumbers, he]
      rw [if_pos hh]
      exact ⟨rfl, storeFind?_storeSet_self st _ _⟩
    · intro hh
      simp only [getVersionNumbers, he]
      rw [if_neg hh]
      exact ⟨rfl, storeFind?_storeSet_self st _ _⟩
  · intro hnone
    simp only [getVersionNumbers, hnone]
    exact ⟨_, rfl⟩

/-- C5 (witness): the progression evaluated on a concrete store — the
same hash bumps the patch only, a new hash bumps the minor and resets the
patch, and a fresh key yields minor 0, patch 1. -/
theorem C5_witness :
    (getVersionNumbers [("f-s", ⟨1, 0, 1, "d", "d", 42⟩)] "f" "s" "d2" 42).2 = (1, 0, 2) ∧
    (getVersionNumbers [("f-s", ⟨1, 0, 1, "d", "d", 42⟩)] "f" "s" "d2" 7).2 = (1, 1, 1) ∧
    ∃ m, (getVersionNumbers [] "f" "s" "d" 1).2 = (m, 0, 1) := by
  have h1 := (C5_version_progression [("f-s", ⟨1, 0, 1, "d", "d", 42⟩)] "f" "s" "d2" 42).1
    ⟨1, 0, 1, "d", "d", 42⟩ (by decide)
  have h2 := (C5_version_progression [("f-s", ⟨1, 0, 1, "d", "d", 42⟩)] "f" "s" "d2" 7).1
    ⟨1, 0, 1, "d", "d", 42⟩ (by decide)
  have h3 := (C5_version_progression [] "f" "s" "d" 1).2 (by decide)
  exact ⟨(h1.1 (by decide)).1, (h2.2 (by decide)).1, h3⟩

/-- C2 (code bug, evaluated at the failing input).  For a class-`M2` line
item whose `estimate_rate` is percentage-formatted (`"28%"`) and whose
`estimate_days` is blank, the returned line item's `validation_messages`
still contain `"Has estimate rate but missing days"` and its
`validation_status` is `"warning"`: the M2-aware check at
`budget_processor.py` lines 871-873 (comment: "Don't validate days for
percentage rates") correctly writes no message, but lines 986-989
overwrite `validation_messages` with the `_validate_line_item` result,
which has no M2 percentage exception.  The second conjunct records that
the rate is indeed percentage-formatted. -/
theorem C2_m2_percent_message_evaluated :
    (processLineItem
        [PyVal.str "1", PyVal.str "Talent bonus", PyVal.str "", PyVal.str "",
         PyVal.str "28%", PyVal.str "100"]
        "M2" (PyVal.str "Additional Talent Expenses") totalsPlain 1).map
      (fun li => (li.validationStatus, li.validationMessages)) =
      some ("warning",
        ["Missing required field: line_number", "Missing required field: description",
         "Has estimate rate but missing days"]) ∧
    pyEndsWith (pyStr (PyVal.str "28%")) "%" = true := by
  exact ⟨by decide, by decide⟩

theorem requiredMsgs_mem (d : Dict) (m : String)
    (hm : m ∈ (["line_number", "description"].filterMap (fun f =>
      if (dictGetV d f).truthy then Option.none
      else some ("Missing required field: " ++ f)))) :
    m ∈ allowedValidationMessages := by
  rw [List.mem_filterMap] at hm
  obtain ⟨f, hf, he⟩ := hm
  by_cases ht : (dictGetV d f).truthy
  · rw [if_pos ht] at he
    exact Option.noConfusion he
  · rw [if_neg ht] at he
    have hme : m = "Missing required field: " ++ f := (Option.some.injEq _ _).mp he |>.symm
    subst hme
    fin_cases hf <;> decide

theorem validateLineItem_ok_known (d : Dict) (code : String) (msgs : List String)
    (h : validateLineItem d code = Except.ok msgs) :
    knownClassCodes.contains code = true := by
  unfold validateLineItem at h
  cases hrf : classRequiredFields? code with
  | none => rw [hrf] at h; exact Except.noConfusion h
  | some rf =>
    unfold classRequiredFields? at hrf
    by_cases hc : knownClassCodes.contains code
    · exact hc
    · rw [if_neg (by simpa using hc)] at hrf
      exact Option.noConfusion hrf

theorem validateLineItem_mem (d : Dict) (code : String) (msgs : List String)
    (h : validateLineItem d code = Except.ok msgs) :
    msgs ⊆ allowedValidationMessages := by
  unfold validateLineItem at h
  cases hrf : classRequiredFields? code with
  | none => rw [hrf] at h; exact Except.noConfusion h
  | some rf =>
    have hrfval : rf = ["line_number", "description"] := by
      unfold classRequiredFields? at hrf
      by_cases hc : knownClassCodes.contains code
      · rw [if_pos hc] at hrf
        exact ((Option.some.injEq _ _).mp hrf).symm
      · rw [if_neg (by simpa using hc)] at hrf
        exact Option.noConfusion hrf
    subst hrfval
    rw [hrf] at h
    have hmsgs := ((Except.ok.injEq _ _).mp h).symm
    intro m hm
    rw [hmsgs] at hm
    simp only [List.mem_append] at hm
    rcases hm with ((hm | hm) | hm) | hm
    · exact requiredMsgs_mem d m hm
    · by_cases hc : ((dictGetV d "estimate_rate").truthy &&
          !(dictGetV d "estimate_days").truthy) = true
      · rw [if_pos hc] at hm
        simp only [List.mem_singleton] at hm
        subst hm; decide
      · rw [if_neg hc] at hm
        exact absurd hm (List.not_mem_nil m)
    · by_cases hc : ((dictGetV d "actual_rate").truthy &&
          !(dictGetV d "actual_days").truthy) = true
      · rw [if_pos hc] at hm
        simp only [List.mem_singleton] at hm
        subst hm; decide
      · rw [if_neg hc] at hm
        exact absurd hm (List.not_mem_nil m)
    · by_cases hb : code = "B"
      · rw [if_pos hb] at hm
        rw [List.mem_append] at hm
        rcases hm with hm | hm
        · by_cases hc : ((dictGetV d "estimate_ot_rate").truthy &&
              !(dictGetV d "estimate_ot_hours").truthy) = true
          · rw [if_pos hc] at hm
            simp only [List.mem_singleton] at hm
            subst hm; decide
          · rw [if_neg hc] at hm
            exact absurd hm (List.not_mem_nil m)
        · by_cases hc : ((dictGetV d "estimate_ot_hours").truthy &&
              !(dictGetV d "estimate_ot_rate").truthy) = true
          · rw [if_pos hc] at hm
            simp only [List.mem_singleton] at hm
            subst hm; decide
          · rw [if_neg hc] at hm
            exact absurd hm (List.not_mem_nil m)
      · rw [if_neg hb] at hm
        exact absurd hm (List.not_mem_nil m)

theorem processLineItem_inv (row : List PyVal) (code : String) (nm : PyVal) (t : Dict)
    (n : ℕ) (li : LineItem) (h : processLineItem row code nm t n = some li) :
    validateLineItem li.data code = Except.ok li.validationMessages := by
  unfold processLineItem at h
  cases he : processLineItemE row code nm t with
  | error e => rw [he] at h; exact Option.noConfusion h
  | ok r =>
    rw [he] at h
    subst h
    unfold processLineItemE at he
    simp only [bind, Except.bind, pure, Except.pure] at he
    repeat' split at he
    all_goals try exact Except.noConfusion he
    all_goals try (simp only [Except.ok.injEq] at he)
    all_goals try exact Option.noConfusion he
    all_goals try (simp only [Option.some.injEq] at he)
    all_goals (subst he; try dsimp only; assumption)

theorem processLineItem_known (row : List PyVal) (code : String) (nm : PyVal) (t : Dict)
    (n : ℕ) (li : LineItem) (h : processLineItem row code nm t n = some li) :
    knownClassCodes.contains code = true :=
  validateLineItem_ok_known _ _ _ (processLineItem_inv row code nm t n li h)

theorem knownContains_ne_empty (code : String)
    (h : knownClassCodes.contains code = true) : code ≠ "" := by
  intro hc
  subst hc
  exact absurd h (by decide)

theorem processRowsAux_ne_nil (code : String) (nm : PyVal) (t : Dict) (l : List (List PyVal))
    (n : ℕ) (h : processRowsAux code nm t n l ≠ []) :
    ∃ (row : List PyVal) (k : ℕ) (li : LineItem), processLineItem row code nm t k = some li := by
  induction l generalizing n with
  | nil => exact absurd rfl h
  | cons row rest ih =>
    simp only [processRowsAux] at h
    by_cases h1 : row = []
    · rw [if_pos h1] at h
      exact ih _ h
    · rw [if_neg h1] at h
      by_cases h2 : row.length < 2
      · rw [if_pos h2] at h
        exact ih _ h
      · rw [if_neg h2] at h
        cases hp : processLineItem row code nm t n with
        | none => rw [hp] at h; exact ih _ h
        | some li => exact ⟨row, n, li, hp⟩

theorem processRows_ne_nil (dv : List (List PyVal)) (code : String) (nm : PyVal) (t : Dict)
    (h : processRows dv code nm t ≠ []) :
    ∃ (row : List PyVal) (k : ℕ) (li : LineItem), processLineItem row code nm t k = some li :=
  processRowsAux_ne_nil code nm t dv 1 h

theorem mkBudgetClass_msgs (code : String) (nm : PyVal) (e1 e2 e3 e4 e5 e6 : ℚ)
    (ls : List LineItem) (hcode : code ≠ "") (hnm : nm.truthy = true) (hls : ls ≠ []) :
    (mkBudgetClass code nm e1 e2 e3 e4 e5 e6 ls).validationMessages = [] := by
  unfold mkBudgetClass
  rw [if_neg (by simp [hcode, hnm])]
  dsimp only
  rw [if_neg (by simpa using hls)]
  simp

theorem processClass_some_msgs (headerFetch nameFetch dataFetch : Except PyErr (List (List PyVal)))
    (totalsFetch : Except PyErr (List (List (List PyVal)))) (code : String)
    (mp : ClassMapping) (bc : BudgetClassM)
    (h : processClass headerFetch nameFetch dataFetch totalsFetch code mp = Except.ok (some bc)) :
    bc.validationMessages = [] := by
  unfold processClass at h
  simp only [bind, Except.bind, pure, Except.pure] at h
  repeat' split at h
  all_goals try exact Except.noConfusion h
  all_goals try (simp only [Except.ok.injEq] at h)
  all_goals try exact Option.noConfusion h
  all_goals try (simp only [Option.some.injEq] at h)
  all_goals subst h
  all_goals rename_i hname hitems
  all_goals try (exact absurd (by decide) hname)
  all_goals
    (have hne : code ≠ "" := by
      obtain ⟨row, k, li, hli⟩ := processRows_ne_nil _ _ _ _ hitems
      exact knownContains_ne_empty code (processLineItem_known _ _ _ _ _ _ hli)
     apply mkBudgetClass_msgs
     · exact hne
     · simpa using hname
     · simpa using hitems)

/-- C1 (amended).  The code performs no class-level reconciliation: every
validation message of a processed line item comes from the fixed
`_validate_line_item` repertoire (`allowedValidationMessages`), none of
which concerns the sheet-stated subtotal, and a successfully extracted
`BudgetClass` always has an empty class-level message list — so no
mismatch message is ever appended, whether or not the sum of per-line
computed totals matches the stated subtotal. -/
theorem C1_no_reconciliation_messages :
    (∀ (row : List PyVal) (code : String) (nm : PyVal) (t : Dict) (n : ℕ) (li : LineItem),
      processLineItem row code nm t n = some li →
      li.validationMessages ⊆ allowedValidationMessages) ∧
    (∀ (hF nF dF : Except PyErr (List (List PyVal)))
       (tF : Except PyErr (List (List (List PyVal)))) (code : String) (mp : ClassMapping)
       (bc : BudgetClassM),
      processClass hF nF dF tF code mp = Except.ok (some bc) →
      bc.validationMessages = []) := by
  constructor
  · intro row code nm t n li h
    exact validateLineItem_mem _ _ _ (processLineItem_inv row code nm t n li h)
  · intro hF nF dF tF code mp bc h
    exact processClass_some_msgs hF nF dF tF code mp bc h

/-- C1 (counterexample).  The claim says a computed-sum/stated-subtotal
difference beyond $0.01 makes the validator append a validation message
for the class.  On the code, the class-A example rows (5 × 1400 and
5 × 1200, computed sum 13000) against a stated estimate subtotal of
`$99,999.00` (difference 86999 ≫ 0.01) produce a `BudgetClass` whose
class-level messages are empty and whose line items carry only the two
always-on required-field messages — no mismatch message anywhere. -/
theorem C1_counterexample :
    (processClass headerFetchA (Except.ok []) dataFetchA totalsFetchMismatch "A" mappingA).map
        (Option.map (fun bc => (bc.validationMessages,
          bc.lineItems.map LineItem.validationMessages))) =
      Except.ok (some ([],
        [["Missing required field: line_number", "Missing required field: description"],
         ["Missing required field: line_number", "Missing required field: description"]])) ∧
    (processClass headerFetchA (Except.ok []) dataFetchA totalsFetchMismatch "A" mappingA).map
        (Option.map BudgetClassM.estimateSubtotal) = Except.ok (some 99999) ∧
    ((5 : ℚ) * 1400 + 5 * 1200 = 13000) ∧
    |(13000 : ℚ) - 99999| > 1 / 100 := by
  refine ⟨by decide, ?_, by norm_num, by norm_num⟩
  have h : (processClass headerFetchA (Except.ok []) dataFetchA totalsFetchMismatch "A"
      mappingA).map (Option.map BudgetClassM.estimateSubtotal) =
      Except.ok (some ((1 : ℚ) * (((99999 : ℕ) : ℚ) + ((0 : ℕ) : ℚ) / (10 : ℚ) ^ (2 : ℕ)))) := rfl
  rw [h]
  norm_num

/-- C1 (witness): the amended statement applied to a concrete line item
and to the concrete mismatching class-A extraction. -/
theorem C1_witness :
    (∃ li, processLineItem [PyVal.str "1", PyVal.str "X"] "A" (PyVal.str "N") totalsPlain 1 =
        some li ∧ li.validationMessages ⊆ allowedValidationMessages) ∧
    (∃ bc, processClass headerFetchA (Except.ok []) dataFetchA totalsFetchMismatch "A" mappingA =
        Except.ok (some bc) ∧ bc.validationMessages = []) := by
  have hform : (processClass headerFetchA (Except.ok []) dataFetchA totalsFetchMismatch "A"
      mappingA).map (Option.map (fun bc => bc.validationMessages)) = Except.ok (some []) := by
    decide
  constructor
  · cases hli : processLineItem [PyVal.str "1", PyVal.str "X"] "A" (PyVal.str "N") totalsPlain 1 with
    | none => exact absurd hli (by decide)
    | some li => exact ⟨li, rfl, C1_no_reconciliation_messages.1 _ _ _ _ _ _ hli⟩
  · cases hbc : processClass headerFetchA (Except.ok []) dataFetchA totalsFetchMismatch "A"
        mappingA with
    | error e =>
      rw [hbc] at hform
      exact absurd hform (by simp [Except.map])
    | ok o =>
      cases o with
      | none =>
        rw [hbc] at hform
        exact absurd hform (by simp [Except.map])
      | some bc =>
        exact ⟨bc, rfl, C1_no_reconciliation_messages.2 _ _ _ _ _ _ _ hbc⟩

/-- C7.  Class absence is non-fatal: (1) an empty header range gives
`None`; (2) an unresolved (falsy) class name gives `None`; (3) zero
surviving line items give `None` — in each case `_process_class` returns
without raising; and (4) the `process_budget` class loop drops a class
whose run raises, processing the remaining classes exactly as if the
failing class were absent, and always produces its classes mapping. -/
theorem C7_class_absence_nonfatal :
    (∀ (nF dF : Except PyErr (List (List PyVal)))
       (tF : Except PyErr (List (List (List PyVal)))) (code : String) (mp : ClassMapping),
      processClass (Except.ok []) nF dF tF code mp = Except.ok Option.none) ∧
    (∀ (hv : List (List PyVal)) (nF dF : Except PyErr (List (List PyVal)))
       (tF : Except PyErr (List (List (List PyVal)))) (code : String) (mp : ClassMapping)
       (nmo : Option PyVal),
      hv ≠ [] →
      getClassName hv code nF = Except.ok nmo →
      (nmo.getD PyVal.none).truthy = false →
      processClass (Except.ok hv) nF dF tF code mp = Except.ok Option.none) ∧
    (∀ (hv dv : List (List PyVal)) (nF : Except PyErr (List (List PyVal)))
       (res : List (List (List PyVal))) (ct : Dict) (code : String) (mp : ClassMapping)
       (nmo : Option PyVal),
      hv ≠ [] →
      getClassName hv code nF = Except.ok nmo →
      (nmo.getD PyVal.none).truthy = true →
      dv ≠ [] →
      getClassTotals mp.hasPw mp.hasClientTotal res = Except.ok ct →
      processRows dv code (nmo.getD PyVal.none) ct = [] →
      processClass (Except.ok hv) nF (Except.ok dv) (Except.ok res) code mp =
        Except.ok Option.none) ∧
    (∀ (xs ys : List (String × ClassMapping × ClassFetches)) (code : String)
       (mp : ClassMapping) (f : ClassFetches) (e : PyErr),
      runBudgetClass code mp f = Except.error e →
      processBudgetClasses (xs ++ (code, mp, f) :: ys) = processBudgetClasses (xs ++ ys)) := by
  refine ⟨?_, ?_, ?_, ?_⟩
  · intro nF dF tF code mp
    simp [processClass, bind, Except.bind, pure, Except.pure]
  · intro hv nF dF tF code mp nmo hne hname htr
    simp only [processClass, bind, Except.bind, pure, Except.pure, hname]
    rw [if_neg (by simpa using hne)]
    cases nmo with
    | none => simp [PyVal.truthy]
    | some v =>
      simp only [Option.getD] at htr
      simp [htr]
  · intro hv dv nF res ct code mp nmo hne hname htr hdv hct hrows
    simp only [processClass, bind, Except.bind, pure, Except.pure, hname]
    rw [if_neg (by simpa using hne)]
    cases nmo with
    | none => simp [Option.getD, PyVal.truthy] at htr
    | some v =>
      simp only [Option.getD] at htr
      simp only [htr, Bool.not_true, Bool.false_eq_true, if_false, reduceIte]
      rw [if_neg (by simpa using hdv)]
      simp only [hct]
      simp only [Option.getD] at hrows
      simp [hrows, pure, Except.pure]
  · intro xs ys code mp f e herr
    induction xs with
    | nil =>
      simp only [List.nil_append, processBudgetClasses, herr]
    | cons t ts ih =>
      simp only [List.cons_append, processBudgetClasses]
      cases runBudgetClass t.1 t.2.1 t.2.2 with
      | error a => exact ih
      | ok o =>
        cases o with
        | none => exact ih
        | some bc => exact congrArg (fun l => (t.1, bc) :: l) ih

/-- C7 (witness): the four conjuncts at concrete inputs — an empty
header; a header whose class name cannot be resolved; a data range whose
rows are all too short (zero line items); and a class whose own header
fetch raises, dropped by the loop. -/
theorem C7_witness :
    processClass (Except.ok []) (Except.ok []) (Except.ok []) (Except.ok []) "A" mappingA =
      Except.ok Option.none ∧
    processClass (Except.ok [[PyVal.str "A"]]) (Except.ok []) (Except.ok []) (Except.ok [])
      "A" mappingA = Except.ok Option.none ∧
    processClass (Except.ok [[PyVal.str "A", PyVal.str "Name"]]) (Except.ok [])
      (Except.ok [[PyVal.str "x"]])
      (Except.ok [[[]], [[]], [[]], [[]]])
      "A" ⟨["line_number", "description"], false, false⟩ = Except.ok Option.none ∧
    processBudgetClasses
        [("A", mappingA,
          ⟨Except.error PyErr.rateLimit, Except.ok [], Except.ok [], Except.ok [],
           Except.ok []⟩)] =
      processBudgetClasses [] := by
  refine ⟨C7_class_absence_nonfatal.1 _ _ _ _ _, ?_, ?_, ?_⟩
  · exact C7_class_absence_nonfatal.2.1 [[PyVal.str "A"]] _ _ _ "A" mappingA Option.none
      (by decide) (by decide) (by decide)
  · exact C7_class_absence_nonfatal.2.2.1 [[PyVal.str "A", PyVal.str "Name"]]
      [[PyVal.str "x"]] (Except.ok []) [[[]], [[]], [[]], [[]]]
      [("class_estimate_subtotal", PyVal.str "$0.00"),
       ("class_actual_subtotal", PyVal.str "$0.00"),
       ("class_estimate_pnw", PyVal.none), ("class_actual_pnw", PyVal.none),
       ("class_estimate_total", PyVal.str "$0.00"),
       ("class_actual_total", PyVal.str "$0.00")]
      "A" ⟨["line_number", "description"], false, false⟩ (some (PyVal.str "Name"))
      (by decide) (by decide) (by decide) (by decide) (by decide) (by decide)
  · exact C7_class_absence_nonfatal.2.2.2 [] [] "A" mappingA
      ⟨Except.error PyErr.rateLimit, Except.ok [], Except.ok [], Except.ok [], Except.ok []⟩
      PyErr.rateLimit (by decide)

theorem validateBudgetRow_fst (isoOk : String → Bool) (r : Dict) (p : Bool × List String)
    (h : validateBudgetRow isoOk r = Except.ok p) : p.1 = p.2.isEmpty := by
  unfold validateBudgetRow at h
  simp only [bind, Except.bind, pure, Except.pure] at h
  repeat' split at h
  all_goals try exact Except.noConfusion h
  all_goals simp only [Except.ok.injEq] at h
  all_goals rw [← h]

theorem validateBudgetRowsAux_spec (isoOk : String → Bool) (rows : List Dict) (i : ℕ)
    (vs : List Dict) (es : List ErrorRow)
    (h : validateBudgetRowsAux isoOk rows i = Except.ok (vs, es)) :
    vs = rows.filter (rowValid isoOk) ∧
      es.map ErrorRow.data = rows.filter (fun r => !rowValid isoOk r) ∧
      vs.length + es.length = rows.length := by
  induction rows generalizing i vs es with
  | nil =>
    simp only [validateBudgetRowsAux] at h
    have hp := (Except.ok.injEq _ _).mp h
    have hvs : vs = [] := (congrArg Prod.fst hp).symm
    have hes : es = [] := (congrArg Prod.snd hp).symm
    subst hvs
    subst hes
    simp
  | cons r rs ih =>
    simp only [validateBudgetRowsAux, bind, Except.bind] at h
    cases hr : validateBudgetRow isoOk r with
    | error e => rw [hr] at h; exact Except.noConfusion h
    | ok p =>
      rw [hr] at h
      cases hrest : validateBudgetRowsAux isoOk rs (i + 1) with
      | error e => rw [hrest] at h; exact Except.noConfusion h
      | ok q =>
        rw [hrest] at h
        dsimp only [pure, Except.pure] at h
        obtain ⟨ihv, ihe, ihl⟩ := ih (i + 1) q.1 q.2 (by rw [hrest])
        by_cases hp : p.1 = true
        · rw [if_pos hp] at h
          have hq := (Except.ok.injEq _ _).mp h
          have hvs : vs = r :: q.1 := (congrArg Prod.fst hq).symm
          have hes : es = q.2 := (congrArg Prod.snd hq).symm
          subst hvs
          subst hes
          have hv : rowValid isoOk r = true := by
            unfold rowValid
            rw [hr]
            exact hp
          refine ⟨?_, ?_, ?_⟩
          · rw [List.filter_cons, if_pos (by simp [hv])]
            rw [ihv]
          · rw [List.filter_cons, if_neg (by simp [hv])]
            exact ihe
          · simp only [List.length_cons]
            omega
        · rw [if_neg hp] at h
          have hq := (Except.ok.injEq _ _).mp h
          have hvs : vs = q.1 := (congrArg Prod.fst hq).symm
          have hes : es = ⟨i, r, p.2⟩ :: q.2 := (congrArg Prod.snd hq).symm
          subst hvs
          subst hes
          have hv : rowValid isoOk r = false := by
            unfold rowValid
            rw [hr]
            simpa using hp
          refine ⟨?_, ?_, ?_⟩
          · rw [List.filter_cons, if_neg (by simp [hv])]
            exact ihv
          · rw [List.map_cons, List.filter_cons, if_pos (by simp [hv])]
            rw [ihe]
          · simp only [List.length_cons]
            omega

/-- C9 (counterexample).  The claim quantifies over every input list of
rows, but `validate_budget_rows` raises for a row whose truthy
`class_code` is not a string: the extra check calls
`row_data['class_code'].strip()`, and the resulting `AttributeError` is
not caught by the `except (ValueError, TypeError)` clause.  A
`[{'class_code': 1}]` input therefore produces no partition at all. -/
theorem C9_counterexample :
    validateBudgetRows (fun _ => true) [[("class_code", PyVal.int 1)]] =
      Except.error PyErr.attributeError := by
  decide

/-- C9 (amended).  For every input list of rows on which
`validate_budget_row` completes without raising (in particular, whenever
each row's `class_code` and `upload_timestamp` values, when present and
truthy, are strings), `validate_budget_rows` partitions the input: the
valid rows are exactly the input rows whose error list is empty (in input
order), the error rows carry exactly the remaining input rows (in input
order) as their `data`, and the two lengths sum to the input length;
moreover a row is valid precisely when `validate_budget_row` returns an
empty error list for it. -/
theorem C9_partition_amended :
    (∀ (isoOk : String → Bool) (rows vs : List Dict) (es : List ErrorRow),
      validateBudgetRows isoOk rows = Except.ok (vs, es) →
      vs = rows.filter (rowValid isoOk) ∧
        es.map ErrorRow.data = rows.filter (fun r => !rowValid isoOk r) ∧
        vs.length + es.length = rows.length) ∧
    (∀ (isoOk : String → Bool) (r : Dict) (p : Bool × List String),
      validateBudgetRow isoOk r = Except.ok p → (p.1 = true ↔ p.2 = [])) := by
  constructor
  · intro isoOk rows vs es h
    exact validateBudgetRowsAux_spec isoOk rows 1 vs es h
  · intro isoOk r p h
    rw [validateBudgetRow_fst isoOk r p h]
    exact List.isEmpty_iff

/-- C9 (witness): the amended partition applied to a concrete two-row
input — a fully valid row and a row with eight findings. -/
theorem C9_witness :
    ([goodRow] : List Dict) = [goodRow, badRow].filter (rowValid isoOk0) ∧
      ([⟨2, badRow, badRowErrors⟩] : List ErrorRow).map ErrorRow.data =
        [goodRow, badRow].filter (fun r => !rowValid isoOk0 r) ∧
      ([goodRow] : List Dict).length + ([⟨2, badRow, badRowErrors⟩] : List ErrorRow).length =
        ([goodRow, badRow] : List Dict).length := by
  have h1 := C9_partition_amended.1 isoOk0 [goodRow, badRow] [goodRow]
    [⟨2, badRow, badRowErrors⟩] (by decide)
  exact h1
